import Mathlib

/-!
# Verification of the Max Walker cricket simulator engine

Shallow embedding of the match-simulation core of
`src/max_walker_cricket_game.py` (class `Match`), together with proofs about
the embedded definitions.  GUI side effects (text output, dialogs, live-panel
refreshes) and purely textual state (dismissal strings, commentary, hat-trick
commentary counters, milestone commentary) do not feed back into any scoring,
wicket, workload or result state, and are omitted; every field and mutation
that the scoring engine reads is embedded.  Randomness (dice rolls, card
draws, the weighted condition deck, the follow-on yes/no dialog) is passed in
as explicit parameters.
-/

namespace MaxWalker

/-- Substring test on strings (used for the `"..." in text_lower` checks of
the source, e.g. classifying byes / no-balls from a loose-ball card's text). -/
def strContains (s pat : String) : Bool :=
  decide (pat.toList <:+: s.toList)

/-- ASCII lower-casing of one character (all strings in the embedded data are
ASCII, on which this agrees with Python's `str.lower`). -/
def lowerChar (c : Char) : Char :=
  if 'A' ≤ c ∧ c ≤ 'Z' then Char.ofNat (c.toNat + 32) else c

/-- `s.lower()` for the ASCII strings of the embedded data. -/
def strLower (s : String) : String :=
  ⟨s.toList.map lowerChar⟩

/-- Python `c.isspace()` for the characters `str.strip` removes (the embedded
strings contain none of these at their ends). -/
def wsChar (c : Char) : Bool :=
  c = ' ' ∨ c = '\t' ∨ c = '\n' ∨ c = '\r' ∨ c = '\x0b' ∨ c = '\x0c'

/-- `s.strip()`. -/
def strTrim (s : String) : String :=
  ⟨((s.toList.dropWhile wsChar).reverse.dropWhile wsChar).reverse⟩

/-- Numeric parse standing for Python's `int(...)` on a chart cell.  The cells
fed to it are digit strings ("0"/"1"/"2"/"3"/"4"/"6"), on which this agrees
with `int`; non-numeric cells make `int` raise, which the caller turns into
`none`-like behavior. -/
def parseNat? (s : String) : Option Nat :=
  if s.toList ≠ [] ∧ s.toList.all Char.isDigit then
    some (s.toList.foldl (fun n c => n * 10 + (c.toNat - ('0').toNat)) 0)
  else none

/-! ## Dice charts (source: `Match.BATTING_CHART`, `Match.BOWLER_WICKET_CHART`)

A chart row has 13 cells: indexes 0..1 are padding blanks, indexes 2..12 are
keyed by the two-dice sum. -/

def BATTING_CHART (r : String) : Option (List String) :=
  if r = "A" then some ["", "", "*", "1", "4", "6", "4", "4", "6", "2", "3", "*", "Loose Ball"]
  else if r = "B" then some ["", "", "2", "*", "6", "4", "3", "4", "4", "6", "3", "*", "Loose Ball"]
  else if r = "C" then some ["", "", "*", "*", "6", "2", "3", "4", "4", "6", "3", "*", "Loose Ball"]
  else if r = "D" then some ["", "", "*", "*", "4", "3", "6", "4", "3", "4", "*", "3", "Loose Ball"]
  else if r = "E" then some ["", "", "*", "*", "1", "2", "3", "4", "4", "3", "*", "4", "Loose Ball"]
  else if r = "F" then some ["", "", "0", "*", "3", "4", "2", "1", "2", "2", "*", "*", "Loose Ball"]
  else if r = "G" then some ["", "", "3", "*", "0", "*", "1", "0", "2", "1", "*", "4", "Loose Ball"]
  else none

def BOWLER_WICKET_CHART (r : String) : Option (List String) :=
  if r = "A" then some ["", "", "No ball", "LBW", "Caught WK", "Caught", "Not out", "Bowled", "Not out", "Caught", "LBW", "Caught WK", "Loose Ball"]
  else if r = "B" then some ["", "", "No ball", "LBW", "Caught", "Not out", "Not out", "Bowled", "Not out", "Caught WK", "Stumped WK", "LBW", "Loose Ball"]
  else if r = "C" then some ["", "", "No ball", "Not out", "Stumped WK", "Not out", "Caught", "Not out", "Bowled", "Not out", "LBW", "Not out", "Loose Ball"]
  else if r = "D" then some ["", "", "No ball", "Caught", "Bowled", "Not out", "Not out", "Not out", "Not out", "Caught", "LBW", "Not out", "Loose Ball"]
  else if r = "E" then some ["", "", "No ball", "Caught", "Not out", "Caught", "Not out", "Not out", "Not out", "Not out", "Not out", "Bowled", "Loose Ball"]
  else none

/-- Fallback batting row used when a rating key is missing
(`["", ""] + ["*"] * 11` at the `simulate_ball` call site). -/
def fallbackBatRow : List String := ["", ""] ++ List.replicate 11 "*"

/-- Fallback bowler row used when a rating key is missing
(`["", ""] + ["Not out"] * 11` at the `simulate_ball` call site). -/
def fallbackBowlRow : List String := ["", ""] ++ List.replicate 11 "Not out"

/-- Ordered rating scale (source: `Match.RATINGS_ORDER`). -/
def RATINGS_ORDER : List String := ["A", "B", "C", "D", "E", "F", "G"]

/-- Source: `Match.apply_rating_modifier`: shift a rating's index within
`RATINGS_ORDER` by `modifier`, clamped to the scale's bounds; unknown ratings
are returned unchanged. -/
def apply_rating_modifier (rating : String) (modifier : Int) : String :=
  if rating ∉ RATINGS_ORDER then rating
  else
    let idx : Int := RATINGS_ORDER.indexOf rating
    let new_idx : Int := max 0 (min (RATINGS_ORDER.length - 1 : Int) (idx + modifier))
    RATINGS_ORDER.getD new_idx.toNat rating

/-! ## Loose Ball cards (source: `Match.LOOSE_BALL_CARDS`)

Each card is a dict; the keys `text`, `out`, `method`, `batsman_runs`,
`bowler_runs`, `extras_runs`, `score_inc` are present on every card, while
`extra_ball` and `retired_hurt` appear only on some cards (reading an absent
key through `.get(key, False)` yields `False`, which the structure defaults
reproduce).  No card carries a `no_ball` key. -/

structure LooseBallCard where
  text : String
  out : Option String
  method : Option String
  batsman_runs : Nat
  bowler_runs : Nat
  extras_runs : Nat
  score_inc : Nat
  extra_ball : Bool := false
  retired_hurt : Bool := false
deriving DecidableEq, Repr

def LOOSE_BALL_CARDS : List LooseBallCard := [
  { text := "Quick single - run out at bowler's end", out := some "striker", method := some "Run Out", batsman_runs := 0, bowler_runs := 0, extras_runs := 0, score_inc := 2 },
  { text := "Wicketkeeper fails to take ball - 2 byes", out := none, method := none, batsman_runs := 0, bowler_runs := 0, extras_runs := 2, score_inc := 2 },
  { text := "Wicketkeeper fails to take ball - 4 byes", out := none, method := none, batsman_runs := 0, bowler_runs := 0, extras_runs := 4, score_inc := 4 },
  { text := "Bouncer edged to slips - caught", out := some "striker", method := some "Caught", batsman_runs := 0, bowler_runs := 0, extras_runs := 0, score_inc := 0 },
  { text := "No ball", out := none, method := none, batsman_runs := 0, bowler_runs := 1, extras_runs := 1, score_inc := 1, extra_ball := true },
  { text := "Batsman attempting 3rd run - run out 2 runs", out := some "striker", method := some "Run Out", batsman_runs := 2, bowler_runs := 2, extras_runs := 0, score_inc := 2 },
  { text := "Leg glance mistimed - caught", out := some "striker", method := some "Caught", batsman_runs := 0, bowler_runs := 0, extras_runs := 0, score_inc := 0 },
  { text := "Poor return to wicketkeeper - 2 overthrows", out := none, method := none, batsman_runs := 2, bowler_runs := 2, extras_runs := 0, score_inc := 2 },
  { text := "Hook shot - catch dropped, 2 runs", out := none, method := none, batsman_runs := 2, bowler_runs := 2, extras_runs := 0, score_inc := 2 },
  { text := "Batsman hit by bouncer - retired hurt", out := none, method := none, batsman_runs := 0, bowler_runs := 0, extras_runs := 0, score_inc := 0, retired_hurt := true },
  { text := "Leg glance - 4 leg byes", out := none, method := none, batsman_runs := 0, bowler_runs := 0, extras_runs := 4, score_inc := 4 },
  { text := "Leg glance - 4 runs", out := none, method := none, batsman_runs := 4, bowler_runs := 4, extras_runs := 0, score_inc := 4 },
  { text := "Bouncer edged to wicketkeeper - caught", out := some "striker", method := some "Caught", batsman_runs := 0, bowler_runs := 0, extras_runs := 0, score_inc := 0 },
  { text := "Hook shot - 6 runs", out := none, method := none, batsman_runs := 6, bowler_runs := 6, extras_runs := 0, score_inc := 6 },
  { text := "Bouncer edged - catch dropped", out := none, method := none, batsman_runs := 0, bowler_runs := 0, extras_runs := 0, score_inc := 0 },
  { text := "Silly mid-on - catch dropped", out := none, method := none, batsman_runs := 0, bowler_runs := 0, extras_runs := 0, score_inc := 0 },
  { text := "Edged through slips - 4 runs", out := none, method := none, batsman_runs := 4, bowler_runs := 4, extras_runs := 0, score_inc := 4 },
  { text := "Edged to wicketkeeper - caught", out := some "striker", method := some "Caught", batsman_runs := 0, bowler_runs := 0, extras_runs := 0, score_inc := 0 },
  { text := "Ball keeps low - LBW", out := some "striker", method := some "LBW", batsman_runs := 0, bowler_runs := 0, extras_runs := 0, score_inc := 0 },
  { text := "Silly mid-on - caught", out := some "striker", method := some "Caught", batsman_runs := 0, bowler_runs := 0, extras_runs := 0, score_inc := 0 }
]

/-- Normalized loose-ball payload, as produced by `Match._loose_ball_payload`:
always carries every field (`type="Loose Ball"` is represented by the
`BallOutcome.looseBall` constructor below). -/
structure LoosePayload where
  text : String
  out : Option String
  method : Option String
  batsman_runs : Nat
  bowler_runs : Nat
  extras_runs : Nat
  score_inc : Nat
  no_ball : Bool
  extra_ball : Bool
  retired_hurt : Bool
deriving DecidableEq, Repr

/-- Source: `Match._loose_ball_payload` (no card carries a `no_ball` key, so
`card.get("no_ball", False)` is always `False`). -/
def loose_ball_payload (c : LooseBallCard) : LoosePayload :=
  { text := c.text
    out := c.out
    method := c.method
    batsman_runs := c.batsman_runs
    bowler_runs := c.bowler_runs
    extras_runs := c.extras_runs
    score_inc := c.score_inc
    no_ball := false
    extra_ball := c.extra_ball
    retired_hurt := c.retired_hurt }

/-- Result of the second-stage appeal resolution inside `simulate_ball`. -/
inductive AppealOutcome where
  | notOut
  | out (method : String)
  | noBall
  | looseBall (card : LoosePayload)
deriving DecidableEq, Repr

/-- The outcome space handled by `Match.start_over`: an `int` number of runs,
the string `"W"`, a `{"type": "No Ball"}` dict, a `{"type": "Loose Ball"}`
payload dict, or a `{"type": "Appeal"}` dict. -/
inductive BallOutcome where
  | runs (n : Nat)
  | wicket
  | noBall
  | looseBall (p : LoosePayload)
  | appeal (a : AppealOutcome)
deriving DecidableEq, Repr

/-- A uniform draw from the loose-ball deck (`random.choice(LOOSE_BALL_CARDS)`),
parameterized by the drawn index: every index denotes an actual deck card. -/
def drawCard (idx : Nat) : LooseBallCard :=
  LOOSE_BALL_CARDS.getD (idx % LOOSE_BALL_CARDS.length)
    { text := "", out := none, method := none, batsman_runs := 0, bowler_runs := 0,
      extras_runs := 0, score_inc := 0 }

/-- The batting-chart cell consulted for a dice sum:
`bat_row[dice] if dice < len(bat_row) else bat_row[-1]`, the row defaulting
to the all-appeals fallback for an unknown rating. -/
def batCellFor (r : String) (dice : Nat) : String :=
  let bat_row := (BATTING_CHART r).getD fallbackBatRow
  if dice < bat_row.length then bat_row.getD dice "" else bat_row.getLastD ""

/-- The bowler-wicket-chart cell consulted for an appeal dice sum:
`bowl_row[dice_w] if dice_w < len(bowl_row) else "Not out"`, the row
defaulting to the all-"Not out" fallback for an unknown rating. -/
def bowlCellFor (r : String) (dice_w : Nat) : String :=
  let bowl_row := (BOWLER_WICKET_CHART r).getD fallbackBowlRow
  if dice_w < bowl_row.length then bowl_row.getD dice_w "" else "Not out"

/-- Source: `Match.simulate_ball`.  The random draws are explicit parameters:
`dice` is the first two-dice sum, `cardIdx` the loose-ball deck draw used on
a direct loose ball, `dice_w` the appeal two-dice sum, and `cardIdxW` the
deck draw used when the appeal resolves to a loose ball. -/
def simulate_ball (adj_bat_rating adj_bowl_rating : String)
    (dice cardIdx dice_w cardIdxW : Nat) : BallOutcome :=
  -- Handle Loose Ball automatically on 12
  if dice = 12 then
    .looseBall (loose_ball_payload (drawCard cardIdx))
  else
    let bat_result := batCellFor adj_bat_rating dice
    -- Appeals ONLY occur when the batting chart result is "*"
    if bat_result = "*" then
      let bowl_result := bowlCellFor adj_bowl_rating dice_w
      if bowl_result = "No ball" then .appeal .noBall
      else if bowl_result = "Loose Ball" then
        .appeal (.looseBall (loose_ball_payload (drawCard cardIdxW)))
      else if bowl_result ∈ ["Caught", "Bowled", "LBW", "Stumped WK", "Caught WK"] then
        .appeal (.out bowl_result)
      else .appeal .notOut
    else if bat_result = "Loose Ball" then
      .looseBall (loose_ball_payload (drawCard cardIdx))
    else
      -- `int(bat_result)`, defaulting to 0 when the cell is not numeric
      match parseNat? bat_result with
      | some n => .runs n
      | none => .runs 0

/-! ## Players and match state

Players are mutated in place in the source; here the two rosters live inside
the match state and batters/bowlers are addressed by their index in their
team's list.  Display-only fields (`country`, `is_wk`, `how_out` dismissal
text) never feed back into scoring/wicket/workload/result state and are
omitted. -/

structure Player where
  name : String
  batting_rating : String
  bowling_rating : Option String
  runs : Nat := 0
  balls_faced : Nat := 0
  fours : Nat := 0
  sixes : Nat := 0
  wickets : Nat := 0
  overs_bowled : Nat := 0
  runs_conceded : Nat := 0
deriving DecidableEq, Repr

/-- Source: `Player.reset_innings_batting_stats` (equivalently the manual
field-reset fallback in `end_innings`; dismissal text omitted). -/
def resetInningsBattingStats (p : Player) : Player :=
  { p with runs := 0, balls_faced := 0, fours := 0, sixes := 0 }

/-- Source: `Player.reset_innings_bowling_stats` (equivalently the manual
field-reset fallback in `end_innings`). -/
def resetInningsBowlingStats (p : Player) : Player :=
  { p with overs_bowled := 0, runs_conceded := 0, wickets := 0 }

/-- One day-condition card (source: entries of `MATCH_CONDITION_TEMPLATES`).
The phase key `"end"` is rendered as `stop`. -/
structure Phase where
  start : Nat
  stop : Nat
  bat : Int
  bowl : Int
deriving DecidableEq, Repr

structure DayCondition where
  text : String
  weight : Nat
  overs_lost_start : Nat
  overs_lost_end : Nat
  no_play : Bool
  phases : List Phase
deriving DecidableEq, Repr

/-- The weighted "Normal conditions" template (source: first entry of
`MATCH_CONDITION_TEMPLATES`). -/
def normalConditions : DayCondition :=
  { text := "Normal conditions apply throughout the day.", weight := 28,
    overs_lost_start := 0, overs_lost_end := 0, no_play := false,
    phases := [{ start := 1, stop := 16, bat := 0, bowl := 0 }] }

/-- Innings snapshot (source: the dict built by
`Match._snapshot_innings_summary`; textual team name and per-row
name/balls/fours/sixes/bowling rows are display-only and reduced to the
per-batter runs column, which is all the claims consume). -/
structure InnSummary where
  runs : Nat
  wickets : Nat
  overs : Nat
  extras : Nat
  extras_b : Nat
  extras_lb : Nat
  extras_nb : Nat
  extras_w : Nat
  fow : List (Nat × Nat)
  batting_runs : List Nat
deriving DecidableEq, Repr

/-- Terminal result (source: the `result_summary` dicts:
`{'type':'draw'}`, `{'type':'tie'}`, and `{'type':'win', 'winner': i,
'margin': '<m> runs' | '<m> wickets' | 'an innings and <m> runs'}`). -/
inductive ResultSummary where
  | draw
  | tie
  | winByRuns (winner : Nat) (margin : Nat)
  | winByWickets (winner : Nat) (margin : Nat)
  | winByInnings (winner : Nat) (margin : Nat)
deriving DecidableEq, Repr

/-! String-keyed counter dicts (`bowler_overs_session`, `bowler_overs_today`)
as association lists. -/

def dictGet (d : List (String × Nat)) (k : String) (dflt : Nat) : Nat :=
  match d.find? (fun kv => kv.1 == k) with
  | some kv => kv.2
  | none => dflt

def dictHas (d : List (String × Nat)) (k : String) : Bool :=
  d.any (fun kv => kv.1 == k)

/-- `d[k] = v` on a dict: update in place when present, append otherwise. -/
def dictSet (d : List (String × Nat)) (k : String) (v : Nat) : List (String × Nat) :=
  if dictHas d k then d.map (fun kv => if kv.1 == k then (kv.1, v) else kv)
  else d ++ [(k, v)]

/-- `d.setdefault(k, v)`. -/
def dictSetdefault (d : List (String × Nat)) (k : String) (v : Nat) : List (String × Nat) :=
  if dictHas d k then d else d ++ [(k, v)]

/-- `{p.name: 0 for p in team}`. -/
def zeroDict (team : List Player) : List (String × Nat) :=
  team.map (fun p => (p.name, 0))

/-- Nat-keyed dict (`innings_batting_team`, `innings_summaries`) helpers. -/
def natDictGet {α : Type} (d : List (Nat × α)) (k : Nat) (dflt : α) : α :=
  match d.find? (fun kv => kv.1 == k) with
  | some kv => kv.2
  | none => dflt

def natDictFind? {α : Type} (d : List (Nat × α)) (k : Nat) : Option α :=
  (d.find? (fun kv => kv.1 == k)).map (fun kv => kv.2)

def natDictSet {α : Type} (d : List (Nat × α)) (k : Nat) (v : α) : List (Nat × α) :=
  if d.any (fun kv => kv.1 == k) then d.map (fun kv => if kv.1 == k then (kv.1, v) else kv)
  else d ++ [(k, v)]

/-- The full mutable state of class `Match` that the simulation core reads or
writes (GUI handles, commentary/hat-trick/milestone bookkeeping and the
wicketkeeper-name cache are display-only and omitted).  `current_batsmen`
holds indices into the current batting team's list; `bowler` an index into
the current bowling team's list; retired-hurt queues hold
`(team id, index)` pairs standing for the Python `Player` object identity. -/
structure Match where
  team1 : List Player
  team2 : List Player
  innings : Nat
  innings_batting_team : List (Nat × Nat)
  runs : Nat
  wickets_taken : Nat
  overs_completed : Nat
  overs_per_session : Nat
  session_overs_completed : Nat
  session_number : Nat
  last_bowler : Option String
  current_batsmen : List Nat
  next_batsman_index : Nat
  bowler : Option Nat
  bowler_overs_session : List (String × Nat)
  bowler_overs_today : List (String × Nat)
  match_over : Bool
  result_summary : Option ResultSummary
  extras : Nat
  extras_nb : Nat
  extras_b : Nat
  extras_lb : Nat
  extras_w : Nat
  innings_summaries : List (Nat × InnSummary)
  follow_on_enforced : Bool
  follow_on_threshold : Nat
  fow : List (Nat × Nat)
  current_over_legal_balls : Nat
  retired_hurt_pending : List (Nat × Nat)
  retired_hurt_returning : List (Nat × Nat)
  retired_hurt_priority : Bool
  innings_declared : Bool
  limits_session_number : Nat
  current_conditions : Option DayCondition
  day_counter : Nat
  current_day : Nat
  day_overs_scheduled : Nat
  overs_in_day : Nat
  day_no_play : Bool
  day_overs_lost_start : Nat
  day_overs_lost_end : Nat
deriving DecidableEq, Repr

namespace Match

/-- `DAY_OVERS` / `MAX_DAYS` class constants. -/
def DAY_OVERS : Nat := 16
def MAX_DAYS : Nat := 5

/-- Source: `Match._batting_team`'s team-id computation
(`innings_batting_team.get(innings, 1 if innings in (1,3) else 2)`). -/
def battingTeamId (m : Match) : Nat :=
  natDictGet m.innings_batting_team m.innings (if m.innings = 1 ∨ m.innings = 3 then 1 else 2)

def batting_team (m : Match) : List Player :=
  if battingTeamId m = 1 then m.team1 else m.team2

/-- Source: `Match._bowling_team` (opposite of the batting team). -/
def bowling_team (m : Match) : List Player :=
  if battingTeamId m = 1 then m.team2 else m.team1

def setBattingTeam (m : Match) (t : List Player) : Match :=
  if battingTeamId m = 1 then { m with team1 := t } else { m with team2 := t }

def setBowlingTeam (m : Match) (t : List Player) : Match :=
  if battingTeamId m = 1 then { m with team2 := t } else { m with team1 := t }

def defaultPlayer : Player :=
  { name := "", batting_rating := "", bowling_rating := none }

/-- The batter at index `i` of the current batting team. -/
def getBatter (m : Match) (i : Nat) : Player :=
  (batting_team m).getD i defaultPlayer

def updBatter (m : Match) (i : Nat) (f : Player → Player) : Match :=
  setBattingTeam m ((batting_team m).set i (f (getBatter m i)))

/-- The current bowler object (`self.bowler`); the loop only runs with a
bowler selected. -/
def getBowler (m : Match) : Player :=
  match m.bowler with
  | some i => (bowling_team m).getD i defaultPlayer
  | none => defaultPlayer

def updBowler (m : Match) (f : Player → Player) : Match :=
  match m.bowler with
  | some i => setBowlingTeam m ((bowling_team m).set i (f ((bowling_team m).getD i defaultPlayer)))
  | none => m

/-- `summaries.get(i, {}).get("runs", 0)`. -/
def summRuns (m : Match) (i : Nat) : Nat :=
  match natDictFind? m.innings_summaries i with
  | some s => s.runs
  | none => 0

/-- Source: `Match.totals_by_team_completed`. -/
def totals_by_team_completed (m : Match) : Nat × Nat :=
  m.innings_summaries.foldl
    (fun acc kv =>
      let tid := natDictGet m.innings_batting_team kv.1 (if kv.1 = 1 ∨ kv.1 = 3 then 1 else 2)
      if tid = 1 then (acc.1 + kv.2.runs, acc.2) else (acc.1, acc.2 + kv.2.runs))
    (0, 0)

/-- Source: `Match.totals_by_team_including_current`. -/
def totals_by_team_including_current (m : Match) : Nat × Nat :=
  let t := totals_by_team_completed m
  let bt := natDictGet m.innings_batting_team m.innings (if m.innings = 1 ∨ m.innings = 3 then 1 else 2)
  if bt = 1 then (t.1 + m.runs, t.2) else (t.1, t.2 + m.runs)

/-- Source: `Match.check_chase_complete`.  Returns the (possibly terminal)
state and whether the caller must return immediately.  `max(0, 10 - wickets)`
is Nat subtraction, which truncates at 0 exactly like the `max`. -/
def check_chase_complete (m : Match) : Match × Bool :=
  if m.innings ≠ 4 ∨ m.match_over then (m, false)
  else
    let t := totals_by_team_including_current m
    let bt := natDictGet m.innings_batting_team 4 2
    if bt = 1 ∧ t.1 > t.2 then
      ({ m with match_over := true,
                result_summary := some (.winByWickets 1 (10 - m.wickets_taken)) }, true)
    else if bt = 2 ∧ t.2 > t.1 then
      ({ m with match_over := true,
                result_summary := some (.winByWickets 2 (10 - m.wickets_taken)) }, true)
    else (m, false)

/-- Source: `Match.determine_result`. -/
def determine_result (m : Match) : Match :=
  if m.match_over then m
  else if m.innings_summaries.length < 4 then m
  else
    let t := totals_by_team_completed m
    if t.1 > t.2 then
      { m with result_summary := some (.winByRuns 1 (t.1 - t.2)), match_over := true }
    else if t.2 > t.1 then
      { m with result_summary := some (.winByRuns 2 (t.2 - t.1)), match_over := true }
    else
      { m with result_summary := some .tie, match_over := true }

/-- Source: `Match.offer_follow_on_if_available`; the external yes/no answer
to the dialog is the `decision` parameter. -/
def offer_follow_on_if_available (m : Match) (decision : Bool) : Match :=
  if m.innings ≠ 2 then m
  else
    let t1_inn1 : Int := summRuns m 1
    let t2_inn1 : Int := summRuns m 2
    let lead : Int := t1_inn1 - t2_inn1
    if lead ≥ (m.follow_on_threshold : Int) then { m with follow_on_enforced := decision }
    else m

/-- Source: `Match._snapshot_innings_summary`. -/
def snapshot_innings_summary (m : Match) : Match :=
  let bt := batting_team m
  let s : InnSummary :=
    { runs := m.runs, wickets := m.wickets_taken, overs := m.overs_completed,
      extras := m.extras, extras_b := m.extras_b, extras_lb := m.extras_lb,
      extras_nb := m.extras_nb, extras_w := m.extras_w, fow := m.fow,
      batting_runs := bt.map (fun p => p.runs) }
  { m with innings_summaries := natDictSet m.innings_summaries m.innings s }

/-- Source: `Match.end_innings`.  `decision` answers any follow-on dialog
raised while ending innings 2. -/
def end_innings (m : Match) (decision : Bool) (force : Bool) : Match :=
  -- Legitimate innings end conditions ONLY
  if ¬force ∧ ¬m.innings_declared ∧ m.wickets_taken < 10 then m
  else
    let m := snapshot_innings_summary m
    -- If follow-on enforced: match can finish after innings 3 via an innings victory
    if m.innings = 3 ∧ m.follow_on_enforced ∧ natDictGet m.innings_batting_team 3 2 = 2 ∧
        summRuns m 2 + summRuns m 3 < summRuns m 1 then
      { m with
          result_summary :=
            some (.winByInnings 1 (summRuns m 1 - (summRuns m 2 + summRuns m 3))),
          match_over := true }
    else if m.innings ≥ 4 then
      { determine_result m with match_over := true }
    else
      -- Offer follow-on if available (after innings 2 completes)
      let m := offer_follow_on_if_available m decision
      -- Advance to next innings; set batting team (supports follow-on)
      let newInnings := m.innings + 1
      let ibt :=
        if newInnings = 2 then natDictSet m.innings_batting_team 2 2
        else if newInnings = 3 then
          natDictSet m.innings_batting_team 3 (if m.follow_on_enforced then 2 else 1)
        else if newInnings = 4 then
          natDictSet m.innings_batting_team 4
            (if natDictGet m.innings_batting_team 3 1 = 2 then 1 else 2)
        else m.innings_batting_team
      -- Reset innings counters and extras
      let m := { m with
                 innings := newInnings, innings_batting_team := ibt,
                 runs := 0, wickets_taken := 0, overs_completed := 0,
                 current_over_legal_balls := 0,
                 limits_session_number := m.session_number, fow := [],
                 extras := 0, extras_nb := 0, extras_b := 0, extras_lb := 0, extras_w := 0 }
      -- New innings (incl. follow-on): reset bowling allocations
      let m := { m with
                 bowler_overs_session := zeroDict (bowling_team m),
                 bowler_overs_today := zeroDict (bowling_team m),
                 last_bowler := none,
                 limits_session_number := m.session_number }
      -- Reset per-innings player stats
      let m := setBattingTeam m ((batting_team m).map resetInningsBattingStats)
      let m := setBowlingTeam m ((bowling_team m).map resetInningsBowlingStats)
      -- Opening batsmen for new innings
      { m with current_batsmen := [0, 1], next_batsman_index := 2,
               bowler := none, last_bowler := none }

/-- Source: `Match.declare_innings`. -/
def declare_innings (m : Match) (decision : Bool) : Match :=
  end_innings { m with innings_declared := true } decision false

/-- Source: `Match.start_new_day`; `cond` is the condition card drawn by
`random.choice(MATCH_CONDITIONS_DECK)`. -/
def start_new_day (m : Match) (cond : DayCondition) : Match :=
  -- Track the day currently being played (day_counter is the next day number)
  let m := { m with current_day := m.day_counter }
  if m.day_counter > MAX_DAYS then
    { m with match_over := true, result_summary := some .draw }
  else
    let sched :=
      if cond.no_play then 0
      else DAY_OVERS - (cond.overs_lost_start + cond.overs_lost_end)  -- max(0, ·) by Nat sub
    let m := { m with
               current_conditions := some cond,
               day_no_play := cond.no_play,
               day_overs_lost_start := cond.overs_lost_start,
               day_overs_lost_end := cond.overs_lost_end,
               day_overs_scheduled := sched,
               overs_in_day := 0, session_overs_completed := 0, session_number := 1,
               last_bowler := none,
               bowler_overs_today := zeroDict (bowling_team m),
               bowler_overs_session := zeroDict (bowling_team m),
               limits_session_number := 1 }
    -- Retired hurt players from the current batting team may return today
    let btid := battingTeamId m
    let movers := (m.retired_hurt_pending.filter (fun q => q.1 = btid)).filter
      (fun q => q ∉ m.retired_hurt_returning)
    let m := { m with
               retired_hurt_returning := m.retired_hurt_returning ++ movers,
               retired_hurt_pending := m.retired_hurt_pending.filter (fun q => q.1 ≠ btid),
               retired_hurt_priority := if movers ≠ [] then true else m.retired_hurt_priority }
    { m with day_counter := m.day_counter + 1 }

/-- Source: `Match._take_next_batsman`; returns the updated state and the next
batter's index (queue entries practically belong to the batting side, having
been moved there at day start). -/
def take_next_batsman (m : Match) : Match × Option Nat :=
  match m.retired_hurt_returning, m.retired_hurt_priority with
  | q :: rest, true =>
      ({ m with retired_hurt_returning := rest,
                retired_hurt_priority := if rest = [] then false else m.retired_hurt_priority },
       some q.2)
  | rhr, _ =>
      if m.next_batsman_index < (batting_team m).length then
        ({ m with next_batsman_index := m.next_batsman_index + 1 }, some m.next_batsman_index)
      else
        match rhr with
        | q :: rest =>
            ({ m with retired_hurt_returning := rest,
                      retired_hurt_priority := if rest = [] then false else m.retired_hurt_priority },
             some q.2)
        | [] => (m, none)

/-- Source: `Match._no_batsmen_left`. -/
def no_batsmen_left (m : Match) : Prop :=
  m.next_batsman_index ≥ (batting_team m).length ∧ m.retired_hurt_returning = []

instance (m : Match) : Decidable (no_batsmen_left m) := by
  unfold no_batsmen_left; infer_instance

/-- Source: `Match._maybe_end_innings_no_batsmen`. -/
def maybe_end_innings_no_batsmen (m : Match) (decision : Bool) : Match × Bool :=
  if m.current_batsmen.length < 2 ∧ no_batsmen_left m then
    (end_innings m decision true, true)
  else (m, false)

/-- Source: `Match._increment_wicket_and_maybe_end`; the Bool is the
"innings ended" return value. -/
def increment_wicket_and_maybe_end (m : Match) (decision : Bool) : Match × Bool :=
  if m.wickets_taken ≥ 10 then (m, true)
  else
    let m := { m with wickets_taken := m.wickets_taken + 1 }
    let m := { m with fow := m.fow ++ [(m.wickets_taken, m.runs)] }
    if m.wickets_taken = 10 then (end_innings m decision false, true)
    else (m, false)

/-- Source: `Match._current_condition_modifiers_for_over`. -/
def condition_modifiers (m : Match) : Int × Int :=
  match m.current_conditions with
  | none => (0, 0)
  | some c =>
    if m.day_no_play then (0, 0)
    else
      let over_num := m.overs_in_day + 1
      match c.phases.find? (fun ph => decide (ph.start ≤ over_num ∧ over_num ≤ ph.stop)) with
      | some ph => (ph.bat, ph.bowl)
      | none => (0, 0)

/-- Source: `Match._bowler_can_bowl`. -/
def bowler_can_bowl (m : Match) (b : Option Player) : Bool :=
  match b with
  | none => false
  | some p =>
    if dictGet m.bowler_overs_session p.name 0 ≥ 2 then false
    else if dictGet m.bowler_overs_today p.name 0 ≥ 4 then false
    else if m.last_bowler = some p.name then false
    else true

/-- Result of applying one ball outcome inside the `start_over` loop:
either `start_over` returned, or the loop continues (carrying
`legal_delivery`). -/
inductive StepRes where
  | ret (m : Match)
  | cont (m : Match) (legal : Bool)
deriving DecidableEq, Repr

/-- The replacement block repeated verbatim in `start_over`'s outcome
branches: pull `_take_next_batsman`; if a batter is available he takes
position `pos` in `current_batsmen`, otherwise `current_batsmen` becomes
`fallback` of the state and `_maybe_end_innings_no_batsmen` may end the
innings (returning). -/
def pull_next_batsman (m : Match) (decision : Bool) (pos : Nat)
    (fallback : Match → List Nat) (legal : Bool) : StepRes :=
  let t := take_next_batsman m
  match t.2 with
  | some nb => .cont { t.1 with current_batsmen := t.1.current_batsmen.set pos nb } legal
  | none =>
    let m := { t.1 with current_batsmen := fallback t.1 }
    let e := maybe_end_innings_no_batsmen m decision
    if e.2 then .ret e.1 else .cont e.1 legal

/-- The wicket-fall block repeated verbatim in `start_over`'s outcome
branches: `_increment_wicket_and_maybe_end` (returning if the innings
ended), then the replacement block. -/
def wicket_fall (m : Match) (decision : Bool) (pos : Nat)
    (fallback : Match → List Nat) (legal : Bool) : StepRes :=
  let r := increment_wicket_and_maybe_end m decision
  if r.2 then .ret r.1
  else pull_next_batsman r.1 decision pos fallback legal

/-- The `runs = int(outcome)` branch of `start_over`'s outcome handling
(`stri` is the striker's index, `current_batsmen[0]` at the top of the
loop iteration). -/
def apply_runs (m : Match) (stri : Nat) (n : Nat) : StepRes :=
  let m := { m with runs := m.runs + n }
  let m := updBatter m stri (fun p => { p with runs := p.runs + n })
  let m :=
    if n = 4 then updBatter m stri (fun p => { p with fours := p.fours + 1 })
    else if n = 6 then updBatter m stri (fun p => { p with sixes := p.sixes + 1 })
    else m
  let m := updBowler m (fun p => { p with runs_conceded := p.runs_conceded + n })
  -- Update scoreboard / chase check (4th innings)
  let r := check_chase_complete m
  if r.2 then .ret r.1
  else
    let m := r.1
    -- Rotate strike on odd runs
    let m :=
      if n % 2 = 1 ∧ m.current_batsmen.length = 2 then
        { m with current_batsmen := [m.current_batsmen.getD 1 0, m.current_batsmen.getD 0 0] }
      else m
    .cont m true

/-- The `appeal_result == "Out"` branch (dismissal text omitted). -/
def apply_appeal_out (m : Match) (method : String) (decision : Bool) : StepRes :=
  -- Credit the bowler for standard bowler-induced dismissals BEFORE ending the innings
  let m :=
    if strLower method ∈ ["bowled", "lbw", "caught", "caught wk", "stumped wk"] then
      updBowler m (fun p => { p with wickets := p.wickets + 1 })
    else m
  wicket_fall m decision 0 (fun _ => []) true

/-- The 1-run no-ball updates, performed identically by the
`appeal_result == "No Ball"` branch and the `otype == "No Ball"` branch. -/
def apply_no_ball (m : Match) : StepRes :=
  let m := { m with runs := m.runs + 1 }
  -- 4th innings chase: end immediately mid-over if target passed
  let r := check_chase_complete m
  if r.2 then .ret r.1
  else
    let m := r.1
    let m := { m with extras := m.extras + 1, extras_nb := m.extras_nb + 1 }
    let m := updBowler m (fun p => { p with runs_conceded := p.runs_conceded + 1 })
    .cont m false

/-- The retired-hurt / dismissal handling at the end of the
`appeal_result == "Loose Ball"` branch (after the score, conceded-runs and
extras updates). -/
def appeal_loose_out (m : Match) (stri : Nat) (card : LoosePayload) (decision : Bool)
    (legal : Bool) : StepRes :=
  if card.retired_hurt then
    -- Retired hurt: replace striker, no wicket
    let btid := battingTeamId m
    let m :=
      if (btid, stri) ∈ m.retired_hurt_pending then m
      else { m with retired_hurt_pending := m.retired_hurt_pending ++ [(btid, stri)] }
    pull_next_batsman m decision 0 (fun _ => []) legal
  else
    match card.out with
    | none => .cont m legal
    | some outFlag =>
      let who0 := strLower (strTrim outFlag)
      if who0 = "striker" ∨ who0 = "non-striker" then
        -- Some loose-ball run outs happen at the bowler's end (often the non-striker)
        let method := strTrim (card.method.getD "")
        let method_lower := strLower method
        let txt := strLower card.text
        let who :=
          if method_lower = "run out" ∧ strContains txt "bowler" then "non-striker" else who0
        let out_pos : Nat := if who = "striker" then 0 else 1
        let out_player := m.current_batsmen.getD out_pos 0
        -- Credit bowler only for bowler-attributed dismissals BEFORE ending the innings
        let m :=
          if method_lower ∈ ["bowled", "lbw", "caught", "caught wk", "stumped wk"] then
            updBowler m (fun p => { p with wickets := p.wickets + 1 })
          else m
        -- No replacement available: innings will end when <2 batsmen remain
        wicket_fall m decision out_pos
          (fun t1 => t1.current_batsmen.filter (fun i => i ≠ out_player)) legal
      else .cont m legal

/-- The conceded-runs and extras-breakdown bookkeeping of the
`appeal_result == "Loose Ball"` branch (run after the mid-branch chase
check). -/
def appeal_loose_extras (m : Match) (card : LoosePayload) : Match :=
  let extras_runs := card.extras_runs
  let m := updBowler m (fun p => { p with runs_conceded := p.runs_conceded + card.bowler_runs })
  -- Track extras breakdown (best-effort)
  let m := { m with extras := m.extras + extras_runs }
  let text_lower := strLower card.text
  let m :=
    if strContains text_lower "no ball" ∨ card.no_ball then
      { m with extras_nb := m.extras_nb + 1 }
    else m
  let m :=
    if strContains text_lower "bye" then { m with extras_b := m.extras_b + extras_runs } else m
  if strContains text_lower "leg bye" ∨ strContains text_lower "leg byes" then
    { m with extras_lb := m.extras_lb + extras_runs }
  else m

/-- The conceded-runs and extras updates of the `appeal_result == "Loose
Ball"` branch, followed by the retired-hurt / dismissal handling.  Ball
counting: if `extra_ball` is true, this is NOT a legal delivery. -/
def appeal_loose_rest (m : Match) (stri : Nat) (card : LoosePayload) (decision : Bool) :
    StepRes :=
  appeal_loose_out (appeal_loose_extras m card) stri card decision
    (¬(card.extra_ball ∨ card.no_ball))

/-- The `appeal_result == "Loose Ball"` branch. -/
def apply_appeal_loose (m : Match) (stri : Nat) (card : LoosePayload) (decision : Bool) :
    StepRes :=
  let m := updBatter m stri (fun p => { p with runs := p.runs + card.batsman_runs })
  let m := { m with runs := m.runs + card.score_inc }
  -- 4th innings chase: end immediately mid-over if target passed
  let r := check_chase_complete m
  if r.2 then .ret r.1
  else appeal_loose_rest r.1 stri card decision

/-- The trailing scoreboard/chase check of the unknown-dict branch: it runs
on every path of that branch that did not return, and may itself end the
match mid-over. -/
def chase_after : StepRes → StepRes
  | .ret m => .ret m
  | .cont m legal =>
    let r := check_chase_complete m
    if r.2 then .ret r.1 else .cont r.1 legal

/-- The retired-hurt / dismissal handling of the unknown-dict branch (only a
striker-flagged dismissal is handled there, with no bowler's-end
redirection). -/
def loose_dict_out (m : Match) (stri : Nat) (card : LoosePayload) (decision : Bool)
    (legal : Bool) : StepRes :=
  if card.retired_hurt then
    let btid := battingTeamId m
    let m :=
      if (btid, stri) ∈ m.retired_hurt_pending then m
      else { m with retired_hurt_pending := m.retired_hurt_pending ++ [(btid, stri)] }
    pull_next_batsman m decision 0 (fun _ => []) legal
  else
    match card.out with
    | none => .cont m legal
    | some outFlag =>
      if strLower (strTrim outFlag) = "striker" then
        let method := strTrim (card.method.getD "")
        let method_lower := strLower method
        let m :=
          if method_lower ∈ ["bowled", "lbw", "caught", "caught wk", "stumped wk"] then
            updBowler m (fun p => { p with wickets := p.wickets + 1 })
          else m
        -- `current_batsmen[1:] if len(current_batsmen) > 1 else []` is `tail`
        wicket_fall m decision 0 (fun t1 => t1.current_batsmen.tail) legal
      else .cont m legal

/-- The scoring and extras prefix of the final `else` branch of the outcome
dispatch ("unknown dict outcome, interpreted as a loose ball"): that branch
handles the `{"type": "Loose Ball"}` payloads `simulate_ball` produces,
since the dispatch only tests for `"Appeal"` and `"No Ball"`. -/
def loose_dict_prep (m : Match) (stri : Nat) (card : LoosePayload) : Match :=
  let extras_runs := card.extras_runs
  let m := updBatter m stri (fun p => { p with runs := p.runs + card.batsman_runs })
  let m := { m with runs := m.runs + card.score_inc }
  let m := { m with extras := m.extras + extras_runs }
  let m := updBowler m (fun p => { p with runs_conceded := p.runs_conceded + card.bowler_runs })
  -- Extras breakdown (best-effort)
  let text_lower := strLower card.text
  let m :=
    if strContains text_lower "no ball" ∨ card.no_ball then
      { m with extras_nb := m.extras_nb + 1 }
    else m
  let m :=
    if strContains text_lower "bye" then { m with extras_b := m.extras_b + extras_runs } else m
  if strContains text_lower "leg bye" ∨ strContains text_lower "leg byes" then
    { m with extras_lb := m.extras_lb + extras_runs }
  else m

/-- Continuation of the unknown-dict branch after the scoring prefix: a
no-ball text also makes the delivery illegal here; then the retired-hurt /
dismissal handling and the trailing scoreboard / chase check (which runs on
every path that did not return). -/
def apply_loose_dict (m : Match) (stri : Nat) (card : LoosePayload) (decision : Bool) :
    StepRes :=
  let legal := ¬(strContains (strLower card.text) "no ball" ∨ card.no_ball)
  chase_after (loose_dict_out (loose_dict_prep m stri card) stri card decision legal)

/-- The `outcome == "W"` branch (generic wicket, treated as Bowled). -/
def apply_wicket_W (m : Match) (decision : Bool) : StepRes :=
  let m := updBowler m (fun p => { p with wickets := p.wickets + 1 })
  wicket_fall m decision 0 (fun _ => []) true

/-- The full `HANDLE OUTCOMES` dispatch of `start_over`. -/
def apply_outcome (m : Match) (stri : Nat) (o : BallOutcome) (decision : Bool) : StepRes :=
  match o with
  | .appeal .notOut => .cont m true
  | .appeal (.out method) => apply_appeal_out m method decision
  | .appeal .noBall => apply_no_ball m
  | .appeal (.looseBall card) => apply_appeal_loose m stri card decision
  | .noBall => apply_no_ball m
  | .looseBall card => apply_loose_dict m stri card decision
  | .wicket => apply_wicket_W m decision
  | .runs n => apply_runs m stri n

/-- The random draws consumed by one loop iteration of `start_over`. -/
structure BallRand where
  dice : Nat
  cardIdx : Nat
  dice_w : Nat
  cardIdxW : Nat
deriving DecidableEq, Repr

/-- The outcome the loop computes for one ball: day-condition modifiers are
applied to the striker's batting rating and the bowler's bowling rating
(defaulting to "A"), then `simulate_ball` resolves the ball. -/
def outcomeAt (m : Match) (stri : Nat) (d : BallRand) : BallOutcome :=
  let mods := condition_modifiers m
  let adj_bat := apply_rating_modifier (getBatter m stri).batting_rating mods.1
  let base_bowl := (getBowler m).bowling_rating.getD "A"
  let adj_bowl := apply_rating_modifier base_bowl mods.2
  simulate_ball adj_bat adj_bowl d.dice d.cardIdx d.dice_w d.cardIdxW

/-- The `while ball < 6` loop of `start_over`.  The Bool result is `true`
when the loop body executed a `return` (so the caller's end-of-over
bookkeeping must be skipped); exhausting the supplied draw list exits the
loop like a `break`. -/
def over_loop (m : Match) (draws : List BallRand) (ball : Nat) (decision : Bool) :
    Match × Bool :=
  match draws with
  | [] => (m, false)
  | d :: rest =>
    if ball < 6 then
      match m.current_batsmen with
      | [] => (m, false)
      | stri :: _ =>
        match apply_outcome m stri (outcomeAt m stri d) decision with
        | .ret m => (m, true)
        | .cont m legal =>
          -- Update balls faced only on legal deliveries
          let s :=
            if legal then
              let m := updBatter m stri (fun p => { p with balls_faced := p.balls_faced + 1 })
              ({ m with current_over_legal_balls := ball + 1 }, ball + 1)
            else (m, ball)
          let m := s.1
          -- End innings if all out
          if m.wickets_taken ≥ 10 ∨ m.current_batsmen.length < 2 then (m, false)
          else over_loop m rest s.2 decision
    else (m, false)

/-- The tail of `start_over`'s end-of-over bookkeeping: the post-over chase
check, the all-out innings end, and stumps (day transition). -/
def end_of_over_finish (m : Match) (cond : DayCondition) (decision : Bool) : Match :=
  let r := check_chase_complete m
  if r.2 then r.1
  else
    let m := r.1
    -- End innings if all out
    let m := if m.wickets_taken ≥ 10 then end_innings m decision false else m
    -- End of day (stumps)
    if ¬m.match_over ∧ m.day_overs_scheduled > 0 ∧ m.overs_in_day ≥ m.day_overs_scheduled then
      start_new_day m cond
    else m

/-- The end-of-over bookkeeping of `start_over` (everything after the ball
loop): strike rotation, bowler/session/day counters, session break, chase
check, all-out innings end, stumps. -/
def end_of_over_counters (m : Match) (bowler_name : String) : Match :=
  -- End-of-over strike rotation (only if two batsmen still in)
  let m :=
    if m.current_batsmen.length = 2 then
      { m with current_batsmen := [m.current_batsmen.getD 1 0, m.current_batsmen.getD 0 0] }
    else m
  -- Update bowler stats
  let m := updBowler m (fun p => { p with overs_bowled := p.overs_bowled + 1 })
  { m with
    bowler_overs_session :=
      dictSet m.bowler_overs_session bowler_name
        (dictGet m.bowler_overs_session bowler_name 0 + 1),
    bowler_overs_today :=
      dictSet m.bowler_overs_today bowler_name
        (dictGet m.bowler_overs_today bowler_name 0 + 1),
    overs_completed := m.overs_completed + 1,
    overs_in_day := m.overs_in_day + 1,
    session_overs_completed := m.session_overs_completed + 1,
    last_bowler := some bowler_name }

def end_of_over (m : Match) (bowler_name : String) (cond : DayCondition) (decision : Bool) :
    Match :=
  -- Strike rotation and bowler / over counters
  let m := end_of_over_counters m bowler_name
  -- Automatically end the session after a fixed number of overs
  let m :=
    if m.session_overs_completed ≥ m.overs_per_session ∧
        (m.day_overs_scheduled = 0 ∨ m.overs_in_day < m.day_overs_scheduled) then
      { m with session_number := m.session_number + 1, session_overs_completed := 0,
               last_bowler := none,
               bowler_overs_session := zeroDict (bowling_team m),
               limits_session_number := m.session_number + 1 }
    else m
  end_of_over_finish m cond decision

/-- The bowler selection, eligibility checks and over execution of
`start_over` (everything after the entry guards and the lazy per-session
limits reset). -/
def select_and_bowl (m : Match) (bowler_name : String) (draws : List BallRand)
    (cond : DayCondition) (decision : Bool) : Match :=
  -- Select bowler
  match (bowling_team m).findIdx? (fun p => p.name == bowler_name) with
  | none => { m with bowler := none }   -- "Invalid bowler selected"
  | some bi =>
    let m := { m with bowler := some bi }
    -- Ensure tracking dicts include this bowler
    let m := { m with
               bowler_overs_session := dictSetdefault m.bowler_overs_session bowler_name 0,
               bowler_overs_today := dictSetdefault m.bowler_overs_today bowler_name 0 }
    -- Limits
    if dictGet m.bowler_overs_session bowler_name 0 ≥ 2 then m
    else if dictGet m.bowler_overs_today bowler_name 0 ≥ 4 then m
    else if m.last_bowler = some bowler_name then m
    else
      let m := { m with
                 current_over_legal_balls := 0,
                 limits_session_number := m.session_number }
      let r := over_loop m draws 0 decision
      if r.2 then r.1
      else end_of_over r.1 bowler_name cond decision

/-- Source: `Match.start_over`.  `draws` are the per-ball random draws,
`cond` the condition card for any day transition performed by this call and
`decision` the answer to any follow-on dialog raised by an innings ending
during this call. -/
def start_over (m : Match) (bowler_name : String) (draws : List BallRand)
    (cond : DayCondition) (decision : Bool) : Match :=
  if m.match_over then m
  else if m.day_overs_scheduled = 0 ∨ m.overs_in_day ≥ m.day_overs_scheduled then
    -- Washout / completed day: advance to the next day on the next action
    start_new_day m cond
  else
    -- Reset per-session bowling limits at the start of a new session
    let m :=
      if m.limits_session_number ≠ m.session_number then
        { m with bowler_overs_session := zeroDict (bowling_team m),
                 last_bowler := none,
                 limits_session_number := m.session_number }
      else m
    select_and_bowl m bowler_name draws cond decision

/-- Source: `Match.__init__` (both rosters handed in; the constructor draws
the first day's conditions via `start_new_day`). -/
def initMatch (team1 team2 : List Player) (cond : DayCondition) : Match :=
  start_new_day
    { team1 := team1, team2 := team2,
      innings := 1, innings_batting_team := [(1, 1)],
      runs := 0, wickets_taken := 0, overs_completed := 0,
      overs_per_session := 8, session_overs_completed := 0, session_number := 1,
      last_bowler := none, current_batsmen := [0, 1], next_batsman_index := 2,
      bowler := none,
      bowler_overs_session := zeroDict team2, bowler_overs_today := zeroDict team2,
      match_over := false, result_summary := none,
      extras := 0, extras_nb := 0, extras_b := 0, extras_lb := 0, extras_w := 0,
      innings_summaries := [], follow_on_enforced := false, follow_on_threshold := 200,
      fow := [], current_over_legal_balls := 0,
      retired_hurt_pending := [], retired_hurt_returning := [],
      retired_hurt_priority := false, innings_declared := false,
      limits_session_number := 1, current_conditions := none,
      day_counter := 1, current_day := 1,
      day_overs_scheduled := DAY_OVERS, overs_in_day := 0, day_no_play := false,
      day_overs_lost_start := 0, day_overs_lost_end := 0 }
    cond

/-- The reachable match states: a freshly constructed match (11-player
rosters, as required before any simulation begins) evolved by any sequence
of `start_over` and `declare_innings` calls, under any random draws,
condition cards and follow-on decisions. -/
inductive Reachable : Match → Prop where
  | init (team1 team2 : List Player) (cond : DayCondition) :
      team1.length = 11 → team2.length = 11 → Reachable (initMatch team1 team2 cond)
  | step {m : Match} (bowler_name : String) (draws : List BallRand)
      (cond : DayCondition) (decision : Bool) :
      Reachable m → Reachable (start_over m bowler_name draws cond decision)
  | declare {m : Match} (decision : Bool) :
      Reachable m → Reachable (declare_innings m decision)

end Match

/-! ## Concrete rosters and traces used as witnesses / counterexamples -/

/-- A specialist batter (rating "F": dice sum 2 is the cell "0", a dot ball). -/
def mkBat (n : String) : Player :=
  { name := n, batting_rating := "F", bowling_rating := none }

/-- A bowler (also rated "F" with the bat). -/
def mkBowl (n : String) : Player :=
  { name := n, batting_rating := "F", bowling_rating := some "A" }

def teamOne : List Player :=
  [mkBat "P1", mkBat "P2", mkBat "P3", mkBat "P4", mkBat "P5", mkBat "P6",
   mkBat "P7", mkBat "P8", mkBat "P9", mkBat "P10", mkBat "P11"]

def teamTwo : List Player :=
  [mkBowl "Q1", mkBowl "Q2", mkBowl "Q3", mkBowl "Q4", mkBowl "Q5", mkBowl "Q6",
   mkBowl "Q7", mkBowl "Q8", mkBowl "Q9", mkBowl "Q10", mkBowl "Q11"]

/-- Six dot balls: dice sum 2 against rating "F" is the chart cell "0". -/
def dotOver : List Match.BallRand :=
  List.replicate 6 { dice := 2, cardIdx := 0, dice_w := 2, cardIdxW := 0 }

/-- Fresh match: team 1 bats, team 2 bowls, normal conditions on day 1. -/
def m0 : Match := Match.initMatch teamOne teamTwo normalConditions

/-- Eight scoreless overs on day 1, bowled by Q1,Q2,Q3,Q4,Q1,Q2,Q3,Q4:
each bowler stays within the 2-per-session / 4-per-day limits and nobody
bowls consecutive overs.  The eighth over fills the session quota, so the
code's session break fires at the end of `traceOver 8`. -/
def traceOver : Nat → Match
  | 0 => m0
  | k + 1 =>
    Match.start_over (traceOver k)
      (["Q1", "Q2", "Q3", "Q4"].getD (k % 4) "Q1") dotOver normalConditions false

/-- One over whose single resolved ball is a 12 (universal Loose Ball) with
deck draw 0: the "Quick single - run out at bowler's end" card
(`score_inc = 2`, `batsman_runs = 0`, `extras_runs = 0`). -/
def mQuickSingle : Match :=
  Match.start_over m0 "Q1" [{ dice := 12, cardIdx := 0, dice_w := 0, cardIdxW := 0 }]
    normalConditions false

/-- A draw resolving (for a rating-"A" striker) to batting-chart index 7. -/
def drawSeven : Match.BallRand := { dice := 7, cardIdx := 0, dice_w := 2, cardIdxW := 0 }

/-- A dot-ball draw (dice sum 2 against a rating-"F" striker). -/
def dotBall : Match.BallRand := { dice := 2, cardIdx := 0, dice_w := 2, cardIdxW := 0 }

/-- The state after applying a plain 4-run outcome to the fresh match
(striker `P1`). -/
def mAfterFour : Match :=
  match Match.apply_runs m0 0 4 with
  | .ret m => m
  | .cont m _ => m

/-- All-out innings summary holding `r` runs (only the `runs` column feeds
the follow-on / chase / result computations). -/
def sumOf (r : Nat) : InnSummary :=
  { runs := r, wickets := 10, overs := 20, extras := 0, extras_b := 0, extras_lb := 0,
    extras_nb := 0, extras_w := 0, fow := [], batting_runs := [] }

/-- A fourth-innings chase state: team 2 needs to pass 220 and currently sits
on a cumulative 221 with 3 wickets down. -/
def m4chase : Match :=
  { m0 with
    innings := 4,
    innings_batting_team := [(1, 1), (2, 2), (3, 1), (4, 2)],
    innings_summaries := [(1, sumOf 100), (2, sumOf 80), (3, sumOf 120)],
    runs := 141, wickets_taken := 3 }

/-- The state after one more ball of the chase in `m4chase` (used to name the
mid-over terminal state). -/
def m4afterBall : Match :=
  match Match.apply_outcome m4chase 0 (Match.outcomeAt m4chase 0 dotBall) false with
  | .ret m => m
  | .cont m _ => m

/-- Innings 3 closing all out as a follow-on innings with the combined
innings-2+3 total exactly equal to the enforcing side's innings-1 total
(300 = 150 + 150). -/
def m3tie : Match :=
  { m0 with
    innings := 3, follow_on_enforced := true,
    innings_batting_team := [(1, 1), (2, 2), (3, 2)],
    innings_summaries := [(1, sumOf 300), (2, sumOf 150)],
    runs := 150, wickets_taken := 10 }

/-- Innings 3 closing all out as a follow-on innings with the combined
innings-2+3 total strictly below the innings-1 total (250 < 300). -/
def m3beaten : Match :=
  { m0 with
    innings := 3, follow_on_enforced := true,
    innings_batting_team := [(1, 1), (2, 2), (3, 2)],
    innings_summaries := [(1, sumOf 300), (2, sumOf 100)],
    runs := 150, wickets_taken := 10 }

/-- Innings 2 closing all out with a first-innings lead of exactly 200
(260 vs 60). -/
def m2end : Match :=
  { m0 with
    innings := 2,
    innings_batting_team := [(1, 1), (2, 2)],
    innings_summaries := [(1, sumOf 260)],
    runs := 60, wickets_taken := 10 }

/-- Innings 3 (no follow-on) closing all out, for the innings-4 alternation
witness. -/
def m3plain : Match :=
  { m0 with
    innings := 3,
    innings_batting_team := [(1, 1), (2, 2), (3, 1)],
    innings_summaries := [(1, sumOf 100), (2, sumOf 120)],
    runs := 90, wickets_taken := 10 }

/-- Cell values occurring in batting-chart rows (including the fallback
row's cells and the padding blanks). -/
def batCells : List String := ["", "*", "Loose Ball", "0", "1", "2", "3", "4", "6"]

/-- Cell values occurring in bowler-wicket-chart rows (including the fallback
row's cells and the padding blanks). -/
def bowlCells : List String :=
  ["", "No ball", "LBW", "Caught WK", "Caught", "Not out", "Bowled", "Stumped WK", "Loose Ball"]

/-- Runs values a resolved ball can carry. -/
def allowedRuns : List Nat := [0, 1, 2, 3, 4, 6]

/-- Dismissal methods an appeal can resolve to. -/
def allowedMethods : List String := ["Caught", "Bowled", "LBW", "Stumped WK", "Caught WK"]

/-- The normalized payloads of the whole loose-ball deck. -/
def payloadDeck : List LoosePayload := LOOSE_BALL_CARDS.map loose_ball_payload

/-- The chase-completion condition of `check_chase_complete`: fourth innings,
match still live, and the side batting innings 4 strictly ahead on the
cumulative totals. -/
def chaseCond (m : Match) : Prop :=
  m.innings = 4 ∧ m.match_over = false ∧
    ((natDictGet m.innings_batting_team 4 2 = 1 ∧
        (Match.totals_by_team_including_current m).1 > (Match.totals_by_team_including_current m).2) ∨
     (natDictGet m.innings_batting_team 4 2 = 2 ∧
        (Match.totals_by_team_including_current m).2 > (Match.totals_by_team_including_current m).1))

instance (m : Match) : Decidable (chaseCond m) := by
  unfold chaseCond; infer_instance

/-- The per-bowler workload bounds of the spec: at most 2 overs recorded per
session and 4 per day. -/
def WorkloadInv (m : Match) : Prop :=
  (∀ kv ∈ m.bowler_overs_session, kv.2 ≤ 2) ∧ (∀ kv ∈ m.bowler_overs_today, kv.2 ≤ 4)

/-- The state invariant maintained by every engine operation: wickets within
[0,10] together with the workload bounds. -/
def CoreInv (m : Match) : Prop :=
  m.wickets_taken ≤ 10 ∧ WorkloadInv m

/-- The workload dicts of `m'` coincide with those of `m`. -/
def dictsEq (m m' : Match) : Prop :=
  m'.bowler_overs_session = m.bowler_overs_session ∧
  m'.bowler_overs_today = m.bowler_overs_today

/-! ## Ball-resolver lemmas -/

theorem payload_drawCard_mem (i : Nat) : loose_ball_payload (drawCard i) ∈ payloadDeck := by
  have hlen : LOOSE_BALL_CARDS.length = 20 := rfl
  have hlt : i % LOOSE_BALL_CARDS.length < LOOSE_BALL_CARDS.length :=
    Nat.mod_lt _ (by rw [hlen]; omega)
  unfold drawCard payloadDeck
  rw [List.getD_eq_getElem _ _ hlt]
  exact List.mem_map_of_mem _ (List.getElem_mem hlt)

theorem sel_getD_mem (l : List String) (n : Nat) (h : n < l.length) : l.getD n "" ∈ l := by
  rw [List.getD_eq_getElem l "" h]; exact List.getElem_mem h

theorem sel_getLastD_mem (l : List String) (h : l ≠ []) : l.getLastD "" ∈ l := by
  rw [List.getLastD_eq_getLast?, List.getLast?_eq_getLast l h]
  simp [List.getLast_mem]

theorem batRow_cells (r : String) :
    ∀ c ∈ (BATTING_CHART r).getD fallbackBatRow, c ∈ batCells := by
  unfold BATTING_CHART
  split_ifs <;> intro c hc <;> revert hc <;> revert c <;> decide

theorem batRow_ne_nil (r : String) : (BATTING_CHART r).getD fallbackBatRow ≠ [] := by
  unfold BATTING_CHART
  split_ifs <;> decide

theorem bowlRow_cells (r : String) :
    ∀ c ∈ (BOWLER_WICKET_CHART r).getD fallbackBowlRow, c ∈ bowlCells := by
  unfold BOWLER_WICKET_CHART
  split_ifs <;> intro c hc <;> revert hc <;> revert c <;> decide

theorem batCellFor_mem (r : String) (dice : Nat) : batCellFor r dice ∈ batCells := by
  apply batRow_cells r
  unfold batCellFor
  dsimp only
  split
  · exact sel_getD_mem _ _ (by assumption)
  · exact sel_getLastD_mem _ (batRow_ne_nil r)

theorem bowlCellFor_mem (r : String) (dice_w : Nat) : bowlCellFor r dice_w ∈ bowlCells := by
  unfold bowlCellFor
  dsimp only
  split
  · exact bowlRow_cells r _ (sel_getD_mem _ _ (by assumption))
  · decide

/-! ## Projection and preservation lemmas for the match state machine -/

namespace Match

@[simp] theorem setBattingTeam_proj (m : Match) (t : List Player) :
    (setBattingTeam m t).wickets_taken = m.wickets_taken ∧
    (setBattingTeam m t).bowler_overs_session = m.bowler_overs_session ∧
    (setBattingTeam m t).bowler_overs_today = m.bowler_overs_today ∧
    (setBattingTeam m t).runs = m.runs ∧
    (setBattingTeam m t).innings = m.innings ∧
    (setBattingTeam m t).match_over = m.match_over ∧
    (setBattingTeam m t).innings_batting_team = m.innings_batting_team ∧
    (setBattingTeam m t).innings_summaries = m.innings_summaries ∧
    (setBattingTeam m t).current_batsmen = m.current_batsmen ∧
    (setBattingTeam m t).last_bowler = m.last_bowler ∧
    (setBattingTeam m t).overs_completed = m.overs_completed := by
  unfold setBattingTeam
  split <;> (repeat' apply And.intro) <;> rfl

@[simp] theorem setBowlingTeam_proj (m : Match) (t : List Player) :
    (setBowlingTeam m t).wickets_taken = m.wickets_taken ∧
    (setBowlingTeam m t).bowler_overs_session = m.bowler_overs_session ∧
    (setBowlingTeam m t).bowler_overs_today = m.bowler_overs_today ∧
    (setBowlingTeam m t).runs = m.runs ∧
    (setBowlingTeam m t).innings = m.innings ∧
    (setBowlingTeam m t).match_over = m.match_over ∧
    (setBowlingTeam m t).innings_batting_team = m.innings_batting_team ∧
    (setBowlingTeam m t).innings_summaries = m.innings_summaries ∧
    (setBowlingTeam m t).current_batsmen = m.current_batsmen ∧
    (setBowlingTeam m t).last_bowler = m.last_bowler ∧
    (setBowlingTeam m t).overs_completed = m.overs_completed := by
  unfold setBowlingTeam
  split <;> (repeat' apply And.intro) <;> rfl

@[simp] theorem updBatter_proj (m : Match) (i : Nat) (f : Player → Player) :
    (updBatter m i f).wickets_taken = m.wickets_taken ∧
    (updBatter m i f).bowler_overs_session = m.bowler_overs_session ∧
    (updBatter m i f).bowler_overs_today = m.bowler_overs_today ∧
    (updBatter m i f).runs = m.runs ∧
    (updBatter m i f).innings = m.innings ∧
    (updBatter m i f).match_over = m.match_over ∧
    (updBatter m i f).innings_batting_team = m.innings_batting_team ∧
    (updBatter m i f).innings_summaries = m.innings_summaries ∧
    (updBatter m i f).current_batsmen = m.current_batsmen ∧
    (updBatter m i f).last_bowler = m.last_bowler ∧
    (updBatter m i f).overs_completed = m.overs_completed := by
  unfold updBatter
  exact setBattingTeam_proj m _

@[simp] theorem updBowler_proj (m : Match) (f : Player → Player) :
    (updBowler m f).wickets_taken = m.wickets_taken ∧
    (updBowler m f).bowler_overs_session = m.bowler_overs_session ∧
    (updBowler m f).bowler_overs_today = m.bowler_overs_today ∧
    (updBowler m f).runs = m.runs ∧
    (updBowler m f).innings = m.innings ∧
    (updBowler m f).match_over = m.match_over ∧
    (updBowler m f).innings_batting_team = m.innings_batting_team ∧
    (updBowler m f).innings_summaries = m.innings_summaries ∧
    (updBowler m f).current_batsmen = m.current_batsmen ∧
    (updBowler m f).last_bowler = m.last_bowler ∧
    (updBowler m f).overs_completed = m.overs_completed := by
  unfold updBowler
  split
  · exact setBowlingTeam_proj _ _
  · (repeat' apply And.intro) <;> rfl

@[simp] theorem check_chase_complete_proj (m : Match) :
    (check_chase_complete m).1.wickets_taken = m.wickets_taken ∧
    (check_chase_complete m).1.bowler_overs_session = m.bowler_overs_session ∧
    (check_chase_complete m).1.bowler_overs_today = m.bowler_overs_today ∧
    (check_chase_complete m).1.runs = m.runs ∧
    (check_chase_complete m).1.innings = m.innings ∧
    (check_chase_complete m).1.current_batsmen = m.current_batsmen ∧
    (check_chase_complete m).1.last_bowler = m.last_bowler ∧
    (check_chase_complete m).1.overs_completed = m.overs_completed := by
  unfold check_chase_complete
  dsimp only
  split
  · (repeat' apply And.intro) <;> rfl
  · split
    · (repeat' apply And.intro) <;> rfl
    · split <;> (repeat' apply And.intro) <;> rfl

@[simp] theorem determine_result_proj (m : Match) :
    (determine_result m).wickets_taken = m.wickets_taken ∧
    (determine_result m).bowler_overs_session = m.bowler_overs_session ∧
    (determine_result m).bowler_overs_today = m.bowler_overs_today := by
  unfold determine_result
  dsimp only
  split
  · exact ⟨rfl, rfl, rfl⟩
  · split
    · exact ⟨rfl, rfl, rfl⟩
    · split
      · exact ⟨rfl, rfl, rfl⟩
      · split <;> exact ⟨rfl, rfl, rfl⟩

@[simp] theorem take_next_batsman_proj (m : Match) :
    (take_next_batsman m).1.wickets_taken = m.wickets_taken ∧
    (take_next_batsman m).1.bowler_overs_session = m.bowler_overs_session ∧
    (take_next_batsman m).1.bowler_overs_today = m.bowler_overs_today ∧
    (take_next_batsman m).1.runs = m.runs ∧
    (take_next_batsman m).1.innings = m.innings ∧
    (take_next_batsman m).1.match_over = m.match_over ∧
    (take_next_batsman m).1.current_batsmen = m.current_batsmen ∧
    (take_next_batsman m).1.last_bowler = m.last_bowler := by
  unfold take_next_batsman
  split
  · (repeat' apply And.intro) <;> rfl
  · split
    · (repeat' apply And.intro) <;> rfl
    · split <;> (repeat' apply And.intro) <;> rfl

theorem zeroDict_bound (t : List Player) (B : Nat) : ∀ kv ∈ zeroDict t, kv.2 ≤ B := by
  intro kv hkv
  unfold zeroDict at hkv
  rcases List.mem_map.mp hkv with ⟨p, _, rfl⟩
  exact Nat.zero_le B

theorem dictSet_bound {d : List (String × Nat)} {k : String} {v B : Nat}
    (hd : ∀ kv ∈ d, kv.2 ≤ B) (hv : v ≤ B) : ∀ kv ∈ dictSet d k v, kv.2 ≤ B := by
  intro kv hkv
  unfold dictSet at hkv
  split at hkv
  · rcases List.mem_map.mp hkv with ⟨kv', hkv', hEq⟩
    by_cases hk : (kv'.1 == k) = true
    · rw [if_pos hk] at hEq
      rw [← hEq]
      exact hv
    · rw [if_neg hk] at hEq
      rw [← hEq]
      exact hd kv' hkv'
  · rcases List.mem_append.mp hkv with hkv | hkv
    · exact hd kv hkv
    · rcases List.mem_singleton.mp hkv with rfl
      exact hv

theorem dictSetdefault_bound {d : List (String × Nat)} {k : String} {v B : Nat}
    (hd : ∀ kv ∈ d, kv.2 ≤ B) (hv : v ≤ B) : ∀ kv ∈ dictSetdefault d k v, kv.2 ≤ B := by
  intro kv hkv
  unfold dictSetdefault at hkv
  split at hkv
  · exact hd kv hkv
  · rcases List.mem_append.mp hkv with hkv | hkv
    · exact hd kv hkv
    · rcases List.mem_singleton.mp hkv with rfl
      exact hv

theorem dictSetdefault_of_has {d : List (String × Nat)} {k : String} {v : Nat}
    (h : dictHas d k = true) : dictSetdefault d k v = d := by
  unfold dictSetdefault dictHas at *
  rw [if_pos h]

theorem end_innings_core (m : Match) (d f : Bool) (h : CoreInv m) :
    CoreInv (end_innings m d f) := by
  obtain ⟨hw, hs, ht⟩ := h
  unfold end_innings
  dsimp only
  split
  · exact ⟨hw, hs, ht⟩
  · split
    · -- innings victory after enforced follow-on
      exact ⟨hw, hs, ht⟩
    · split
      · -- fourth innings complete: determine result
        refine ⟨?_, ?_, ?_⟩
        · simpa using hw
        · simpa using hs
        · simpa using ht
      · -- advance to the next innings: all counters reset
        refine ⟨by simp, fun kv hkv => ?_, fun kv hkv => ?_⟩
        · simp at hkv
          exact Match.zeroDict_bound _ 2 kv hkv
        · simp at hkv
          exact Match.zeroDict_bound _ 4 kv hkv

theorem start_new_day_core (m : Match) (c : DayCondition) (h : CoreInv m) :
    CoreInv (start_new_day m c) := by
  obtain ⟨hw, hs, ht⟩ := h
  unfold start_new_day
  dsimp only
  split
  · exact ⟨hw, hs, ht⟩
  · exact ⟨hw, Match.zeroDict_bound _ _, Match.zeroDict_bound _ _⟩

theorem increment_wicket_core (m : Match) (d : Bool) (h : CoreInv m) :
    CoreInv (increment_wicket_and_maybe_end m d).1 := by
  obtain ⟨hw, hs, ht⟩ := h
  unfold increment_wicket_and_maybe_end
  dsimp only
  split
  · exact ⟨hw, hs, ht⟩
  · next hlt =>
    split
    · exact end_innings_core _ _ _ ⟨by dsimp only; omega, hs, ht⟩
    · exact ⟨by dsimp only; omega, hs, ht⟩

theorem maybe_end_core (m : Match) (d : Bool) (h : CoreInv m) :
    CoreInv (maybe_end_innings_no_batsmen m d).1 := by
  unfold maybe_end_innings_no_batsmen
  split
  · exact end_innings_core _ _ _ h
  · exact h

theorem coreInv_of_fields {m m' : Match} (hw : m'.wickets_taken = m.wickets_taken)
    (hs : m'.bowler_overs_session = m.bowler_overs_session)
    (ht : m'.bowler_overs_today = m.bowler_overs_today) (h : CoreInv m) : CoreInv m' := by
  unfold CoreInv WorkloadInv at *
  rw [hw, hs, ht]
  exact h

theorem dictsEq_of_fields {m m' : Match}
    (hs : m'.bowler_overs_session = m.bowler_overs_session)
    (ht : m'.bowler_overs_today = m.bowler_overs_today) : dictsEq m m' := ⟨hs, ht⟩

theorem increment_not_ended_dicts (m : Match) (d : Bool)
    (h2 : (increment_wicket_and_maybe_end m d).2 = false) :
    (increment_wicket_and_maybe_end m d).1.bowler_overs_session = m.bowler_overs_session ∧
    (increment_wicket_and_maybe_end m d).1.bowler_overs_today = m.bowler_overs_today := by
  unfold increment_wicket_and_maybe_end at *
  dsimp only at *
  by_cases h10 : m.wickets_taken ≥ 10
  · rw [if_pos h10] at h2
    simp at h2
  · rw [if_neg h10] at h2 ⊢
    by_cases heq : m.wickets_taken + 1 = 10
    · rw [if_pos heq] at h2
      simp at h2
    · rw [if_neg heq] at h2 ⊢
      exact ⟨rfl, rfl⟩

theorem maybe_end_not_ended (m : Match) (d : Bool)
    (h2 : (maybe_end_innings_no_batsmen m d).2 = false) :
    (maybe_end_innings_no_batsmen m d).1 = m := by
  unfold maybe_end_innings_no_batsmen at *
  by_cases hc : m.current_batsmen.length < 2 ∧ no_batsmen_left m
  · rw [if_pos hc] at h2
    simp at h2
  · rw [if_neg hc]

theorem chase_core (m : Match) (h : CoreInv m) : CoreInv (check_chase_complete m).1 :=
  coreInv_of_fields (check_chase_complete_proj m).1 (check_chase_complete_proj m).2.1
    (check_chase_complete_proj m).2.2.1 h

/-- Invariant statement for a single outcome-application step: the invariant
is preserved, and on a continuing (non-returning) step the workload dicts are
untouched. -/
def StepInv (m : Match) : StepRes → Prop
  | .ret m' => CoreInv m'
  | .cont m' _ => CoreInv m' ∧ dictsEq m m'

theorem apply_runs_core (m : Match) (stri n : Nat) (h : CoreInv m) :
    StepInv m (apply_runs m stri n) := by
  unfold apply_runs
  dsimp only
  repeat' split
  all_goals
    first
      | exact coreInv_of_fields (by simp [apply_ite]) (by simp [apply_ite]) (by simp [apply_ite]) h
      | exact ⟨coreInv_of_fields (by simp [apply_ite]) (by simp [apply_ite]) (by simp [apply_ite]) h,
          dictsEq_of_fields (by simp [apply_ite]) (by simp [apply_ite])⟩

theorem apply_no_ball_core (m : Match) (h : CoreInv m) : StepInv m (apply_no_ball m) := by
  unfold apply_no_ball
  dsimp only
  repeat' split
  all_goals
    first
      | exact coreInv_of_fields (by simp [apply_ite]) (by simp [apply_ite]) (by simp [apply_ite]) h
      | exact ⟨coreInv_of_fields (by simp [apply_ite]) (by simp [apply_ite]) (by simp [apply_ite]) h,
          dictsEq_of_fields (by simp [apply_ite]) (by simp [apply_ite])⟩

theorem stepInv_trans {m m1 : Match} {s : StepRes}
    (hs' : m1.bowler_overs_session = m.bowler_overs_session)
    (ht' : m1.bowler_overs_today = m.bowler_overs_today) (h : StepInv m1 s) : StepInv m s := by
  cases s with
  | ret m' => exact h
  | cont m' l => exact ⟨h.1, h.2.1.trans hs', h.2.2.trans ht'⟩

theorem pull_next_core (m : Match) (d : Bool) (pos : Nat) (fb : Match → List Nat)
    (legal : Bool) (h : CoreInv m) : StepInv m (pull_next_batsman m d pos fb legal) := by
  unfold pull_next_batsman
  dsimp only
  split
  · exact ⟨coreInv_of_fields (by simp) (by simp) (by simp) h,
      dictsEq_of_fields (by simp) (by simp)⟩
  · split
    · exact maybe_end_core _ _ (coreInv_of_fields (by simp) (by simp) (by simp) h)
    · next hme =>
      rw [Bool.not_eq_true] at hme
      rw [maybe_end_not_ended _ _ hme]
      exact ⟨coreInv_of_fields (by simp) (by simp) (by simp) h,
        dictsEq_of_fields (by simp) (by simp)⟩

theorem wicket_fall_core (m : Match) (d : Bool) (pos : Nat) (fb : Match → List Nat)
    (legal : Bool) (h : CoreInv m) : StepInv m (wicket_fall m d pos fb legal) := by
  unfold wicket_fall
  dsimp only
  split
  · exact increment_wicket_core _ _ h
  · next hne =>
    rw [Bool.not_eq_true] at hne
    exact stepInv_trans (increment_not_ended_dicts _ _ hne).1
      (increment_not_ended_dicts _ _ hne).2
      (pull_next_core _ _ _ _ _ (increment_wicket_core _ _ h))

theorem apply_appeal_out_core (m : Match) (method : String) (d : Bool) (h : CoreInv m) :
    StepInv m (apply_appeal_out m method d) := by
  unfold apply_appeal_out
  dsimp only
  split
  · exact stepInv_trans (by simp) (by simp)
      (wicket_fall_core _ _ _ _ _ (coreInv_of_fields (by simp) (by simp) (by simp) h))
  · exact wicket_fall_core _ _ _ _ _ h

theorem apply_wicket_W_core (m : Match) (d : Bool) (h : CoreInv m) :
    StepInv m (apply_wicket_W m d) := by
  unfold apply_wicket_W
  dsimp only
  exact stepInv_trans (by simp) (by simp)
    (wicket_fall_core _ _ _ _ _ (coreInv_of_fields (by simp) (by simp) (by simp) h))

theorem chase_after_core {m : Match} {s : StepRes} (h : StepInv m s) :
    StepInv m (chase_after s) := by
  cases s with
  | ret m' => exact h
  | cont m' l =>
    unfold chase_after
    dsimp only
    split
    · exact coreInv_of_fields (by simp) (by simp) (by simp) h.1
    · exact ⟨coreInv_of_fields (by simp) (by simp) (by simp) h.1,
        dictsEq_of_fields (by simp [h.2.1]) (by simp [h.2.2])⟩

set_option maxRecDepth 8192 in
theorem appeal_loose_out_core (m : Match) (stri : Nat) (card : LoosePayload) (d : Bool)
    (legal : Bool) (h : CoreInv m) : StepInv m (appeal_loose_out m stri card d legal) := by
  unfold appeal_loose_out
  dsimp only
  repeat' split
  all_goals
    first
      | exact coreInv_of_fields (by simp [apply_ite]) (by simp [apply_ite]) (by simp [apply_ite]) h
      | exact ⟨coreInv_of_fields (by simp [apply_ite]) (by simp [apply_ite]) (by simp [apply_ite]) h,
          dictsEq_of_fields (by simp [apply_ite]) (by simp [apply_ite])⟩
      | exact stepInv_trans (by simp [apply_ite]) (by simp [apply_ite])
          (pull_next_core _ _ _ _ _ (coreInv_of_fields (by simp [apply_ite])
            (by simp [apply_ite]) (by simp [apply_ite]) h))
      | exact stepInv_trans (by simp [apply_ite]) (by simp [apply_ite])
          (wicket_fall_core _ _ _ _ _ (coreInv_of_fields (by simp [apply_ite])
            (by simp [apply_ite]) (by simp [apply_ite]) h))

@[simp] theorem appeal_loose_extras_proj (m : Match) (card : LoosePayload) :
    (appeal_loose_extras m card).wickets_taken = m.wickets_taken ∧
    (appeal_loose_extras m card).bowler_overs_session = m.bowler_overs_session ∧
    (appeal_loose_extras m card).bowler_overs_today = m.bowler_overs_today := by
  unfold appeal_loose_extras
  dsimp only
  repeat' split
  all_goals simp

theorem appeal_loose_rest_core (m : Match) (stri : Nat) (card : LoosePayload) (d : Bool)
    (h : CoreInv m) : StepInv m (appeal_loose_rest m stri card d) := by
  unfold appeal_loose_rest
  exact stepInv_trans (appeal_loose_extras_proj m card).2.1 (appeal_loose_extras_proj m card).2.2
    (appeal_loose_out_core _ _ _ _ _
      (coreInv_of_fields (appeal_loose_extras_proj m card).1
        (appeal_loose_extras_proj m card).2.1 (appeal_loose_extras_proj m card).2.2 h))

set_option maxRecDepth 8192 in
theorem apply_appeal_loose_core (m : Match) (stri : Nat) (card : LoosePayload) (d : Bool)
    (h : CoreInv m) : StepInv m (apply_appeal_loose m stri card d) := by
  unfold apply_appeal_loose
  dsimp only
  split
  · exact coreInv_of_fields (by simp) (by simp) (by simp) h
  · exact stepInv_trans (by simp) (by simp)
      (appeal_loose_rest_core _ _ _ _ (coreInv_of_fields (by simp) (by simp) (by simp) h))

set_option maxRecDepth 8192 in
theorem loose_dict_out_core (m : Match) (stri : Nat) (card : LoosePayload) (d : Bool)
    (legal : Bool) (h : CoreInv m) : StepInv m (loose_dict_out m stri card d legal) := by
  unfold loose_dict_out
  dsimp only
  repeat' split
  all_goals
    first
      | exact coreInv_of_fields (by simp [apply_ite]) (by simp [apply_ite]) (by simp [apply_ite]) h
      | exact ⟨coreInv_of_fields (by simp [apply_ite]) (by simp [apply_ite]) (by simp [apply_ite]) h,
          dictsEq_of_fields (by simp [apply_ite]) (by simp [apply_ite])⟩
      | exact stepInv_trans (by simp [apply_ite]) (by simp [apply_ite])
          (pull_next_core _ _ _ _ _ (coreInv_of_fields (by simp [apply_ite])
            (by simp [apply_ite]) (by simp [apply_ite]) h))
      | exact stepInv_trans (by simp [apply_ite]) (by simp [apply_ite])
          (wicket_fall_core _ _ _ _ _ (coreInv_of_fields (by simp [apply_ite])
            (by simp [apply_ite]) (by simp [apply_ite]) h))

@[simp] theorem loose_dict_prep_proj (m : Match) (stri : Nat) (card : LoosePayload) :
    (loose_dict_prep m stri card).wickets_taken = m.wickets_taken ∧
    (loose_dict_prep m stri card).bowler_overs_session = m.bowler_overs_session ∧
    (loose_dict_prep m stri card).bowler_overs_today = m.bowler_overs_today := by
  unfold loose_dict_prep
  dsimp only
  repeat' split
  all_goals simp

theorem apply_loose_dict_core (m : Match) (stri : Nat) (card : LoosePayload) (d : Bool)
    (h : CoreInv m) : StepInv m (apply_loose_dict m stri card d) := by
  unfold apply_loose_dict
  dsimp only
  apply chase_after_core
  exact stepInv_trans (loose_dict_prep_proj m stri card).2.1 (loose_dict_prep_proj m stri card).2.2
    (loose_dict_out_core _ _ _ _ _
      (coreInv_of_fields (loose_dict_prep_proj m stri card).1
        (loose_dict_prep_proj m stri card).2.1 (loose_dict_prep_proj m stri card).2.2 h))

theorem apply_outcome_core (m : Match) (stri : Nat) (o : BallOutcome) (d : Bool)
    (h : CoreInv m) : StepInv m (apply_outcome m stri o d) := by
  cases o with
  | runs n => exact apply_runs_core m stri n h
  | wicket => exact apply_wicket_W_core m d h
  | noBall => exact apply_no_ball_core m h
  | looseBall card => exact apply_loose_dict_core m stri card d h
  | appeal a =>
    cases a with
    | notOut => exact ⟨h, rfl, rfl⟩
    | out method => exact apply_appeal_out_core m method d h
    | noBall => exact apply_no_ball_core m h
    | looseBall card => exact apply_appeal_loose_core m stri card d h

theorem over_loop_core (draws : List BallRand) :
    ∀ (m : Match) (ball : Nat) (d : Bool), CoreInv m →
      CoreInv (over_loop m draws ball d).1 ∧
      ((over_loop m draws ball d).2 = false → dictsEq m (over_loop m draws ball d).1) := by
  induction draws with
  | nil =>
    intro m ball d h
    exact ⟨h, fun _ => ⟨rfl, rfl⟩⟩
  | cons dr rest ih =>
    intro m ball d h
    unfold over_loop
    split
    · -- ball < 6
      split
      · exact ⟨h, fun _ => ⟨rfl, rfl⟩⟩
      · next stri tl heq =>
        have hs := apply_outcome_core m stri (outcomeAt m stri dr) d h
        split
        · next m' happ =>
          rw [happ] at hs
          refine ⟨hs, fun hf => ?_⟩
          simp at hf
        · next m' legal happ =>
          rw [happ] at hs
          dsimp only
          split
          · -- legal delivery: balls-faced / legal-ball bookkeeping
            split
            · -- loop break (all out / lone batter)
              exact ⟨coreInv_of_fields (by simp) (by simp) (by simp) hs.1,
                fun _ => ⟨by simp [hs.2.1], by simp [hs.2.2]⟩⟩
            · obtain ⟨h1, h2⟩ := ih
                { updBatter m' stri (fun p => { p with balls_faced := p.balls_faced + 1 }) with
                  current_over_legal_balls := ball + 1 }
                (ball + 1) d (coreInv_of_fields (by simp) (by simp) (by simp) hs.1)
              refine ⟨h1, fun hf => ⟨(h2 hf).1.trans (by simp [hs.2.1]),
                (h2 hf).2.trans (by simp [hs.2.2])⟩⟩
          · split
            · exact ⟨hs.1, fun _ => hs.2⟩
            · obtain ⟨h1, h2⟩ := ih _ ball d hs.1
              refine ⟨h1, fun hf => ⟨(h2 hf).1.trans hs.2.1, (h2 hf).2.trans hs.2.2⟩⟩
    · exact ⟨h, fun _ => ⟨rfl, rfl⟩⟩

theorem end_of_over_finish_core (m : Match) (cond : DayCondition) (d : Bool)
    (h : CoreInv m) : CoreInv (end_of_over_finish m cond d) := by
  unfold end_of_over_finish
  dsimp only
  repeat' split
  all_goals
    first
      | exact coreInv_of_fields (by simp) (by simp) (by simp) h
      | exact start_new_day_core _ _ (end_innings_core _ _ _
          (coreInv_of_fields (by simp) (by simp) (by simp) h))
      | exact start_new_day_core _ _ (coreInv_of_fields (by simp) (by simp) (by simp) h)
      | exact end_innings_core _ _ _ (coreInv_of_fields (by simp) (by simp) (by simp) h)

theorem end_of_over_counters_fields (m : Match) (name : String) :
    (end_of_over_counters m name).wickets_taken = m.wickets_taken ∧
    (end_of_over_counters m name).bowler_overs_session =
      dictSet m.bowler_overs_session name (dictGet m.bowler_overs_session name 0 + 1) ∧
    (end_of_over_counters m name).bowler_overs_today =
      dictSet m.bowler_overs_today name (dictGet m.bowler_overs_today name 0 + 1) := by
  unfold end_of_over_counters
  dsimp only
  split <;> simp

theorem end_of_over_core (m : Match) (name : String) (cond : DayCondition) (d : Bool)
    (h : CoreInv m)
    (hs1 : dictGet m.bowler_overs_session name 0 ≤ 1)
    (ht1 : dictGet m.bowler_overs_today name 0 ≤ 3) :
    CoreInv (end_of_over m name cond d) := by
  unfold end_of_over
  dsimp only
  apply end_of_over_finish_core
  obtain ⟨hw, hsess, htoday⟩ := end_of_over_counters_fields m name
  have hc1 : CoreInv (end_of_over_counters m name) := by
    refine ⟨by rw [hw]; exact h.1, ?_, ?_⟩
    · rw [hsess]
      exact dictSet_bound h.2.1 (by omega)
    · rw [htoday]
      exact dictSet_bound h.2.2 (by omega)
  split
  · -- session break: per-session dict reset
    exact ⟨hc1.1, fun kv hkv => zeroDict_bound _ 2 kv hkv, hc1.2.2⟩
  · exact hc1

theorem select_and_bowl_core (m : Match) (name : String) (draws : List BallRand)
    (cond : DayCondition) (d : Bool) (h : CoreInv m) :
    CoreInv (select_and_bowl m name draws cond d) := by
  unfold select_and_bowl
  dsimp only
  split
  · exact coreInv_of_fields rfl rfl rfl h
  · next bi hfind =>
    have h2 : CoreInv
        { m with
          bowler := some bi,
          bowler_overs_session := dictSetdefault m.bowler_overs_session name 0,
          bowler_overs_today := dictSetdefault m.bowler_overs_today name 0 } :=
      ⟨h.1, dictSetdefault_bound h.2.1 (by omega), dictSetdefault_bound h.2.2 (by omega)⟩
    split
    · exact h2
    · split
      · exact h2
      · split
        · exact h2
        · next hc1 hc2 hc3 =>
          have h3 : CoreInv
              { m with
                bowler := some bi,
                bowler_overs_session := dictSetdefault m.bowler_overs_session name 0,
                bowler_overs_today := dictSetdefault m.bowler_overs_today name 0,
                current_over_legal_balls := 0,
                limits_session_number := m.session_number } :=
            ⟨h.1, dictSetdefault_bound h.2.1 (by omega), dictSetdefault_bound h.2.2 (by omega)⟩
          split
          · exact (over_loop_core draws _ 0 d h3).1
          · next hret =>
            rw [Bool.not_eq_true] at hret
            have hloop := over_loop_core draws _ 0 d h3
            have hdicts := hloop.2 hret
            apply end_of_over_core _ _ _ _ hloop.1
            · rw [hdicts.1]
              dsimp only
              omega
            · rw [hdicts.2]
              dsimp only
              omega

theorem start_over_core (m : Match) (name : String) (draws : List BallRand)
    (cond : DayCondition) (d : Bool) (h : CoreInv m) :
    CoreInv (start_over m name draws cond d) := by
  unfold start_over
  dsimp only
  split
  · exact h
  · split
    · exact start_new_day_core _ _ h
    · split
      · exact select_and_bowl_core _ _ _ _ _ ⟨h.1, zeroDict_bound _ _, h.2.2⟩
      · exact select_and_bowl_core _ _ _ _ _ h

theorem declare_innings_core (m : Match) (d : Bool) (h : CoreInv m) :
    CoreInv (declare_innings m d) :=
  end_innings_core _ _ _ ⟨h.1, h.2.1, h.2.2⟩

theorem initMatch_core (team1 team2 : List Player) (cond : DayCondition) :
    CoreInv (initMatch team1 team2 cond) := by
  apply start_new_day_core
  exact ⟨Nat.zero_le 10, zeroDict_bound _ _, zeroDict_bound _ _⟩

/-- Every reachable state satisfies the wicket and workload invariants. -/
theorem reachable_core_inv {m : Match} (h : Reachable m) : CoreInv m := by
  induction h with
  | init t1 t2 cond h1 h2 => exact initMatch_core t1 t2 cond
  | step name draws cond d _ ih => exact start_over_core _ _ _ _ _ ih
  | declare d _ ih => exact declare_innings_core _ _ ih

@[simp] theorem snapshot_proj (m : Match) :
    (snapshot_innings_summary m).innings = m.innings ∧
    (snapshot_innings_summary m).follow_on_enforced = m.follow_on_enforced ∧
    (snapshot_innings_summary m).innings_batting_team = m.innings_batting_team ∧
    (snapshot_innings_summary m).match_over = m.match_over ∧
    (snapshot_innings_summary m).wickets_taken = m.wickets_taken ∧
    (snapshot_innings_summary m).runs = m.runs ∧
    (snapshot_innings_summary m).session_number = m.session_number ∧
    (snapshot_innings_summary m).result_summary = m.result_summary ∧
    (snapshot_innings_summary m).innings_declared = m.innings_declared ∧
    (snapshot_innings_summary m).follow_on_threshold = m.follow_on_threshold :=
  ⟨rfl, rfl, rfl, rfl, rfl, rfl, rfl, rfl, rfl, rfl⟩

@[simp] theorem offer_follow_on_proj (m : Match) (d : Bool) :
    (offer_follow_on_if_available m d).innings = m.innings ∧
    (offer_follow_on_if_available m d).innings_batting_team = m.innings_batting_team ∧
    (offer_follow_on_if_available m d).match_over = m.match_over ∧
    (offer_follow_on_if_available m d).wickets_taken = m.wickets_taken ∧
    (offer_follow_on_if_available m d).innings_summaries = m.innings_summaries ∧
    (offer_follow_on_if_available m d).result_summary = m.result_summary ∧
    (offer_follow_on_if_available m d).session_number = m.session_number := by
  unfold offer_follow_on_if_available
  dsimp only
  split
  · exact ⟨rfl, rfl, rfl, rfl, rfl, rfl, rfl⟩
  · split <;> exact ⟨rfl, rfl, rfl, rfl, rfl, rfl, rfl⟩

theorem natDictGet_map_set {α : Type} (d : List (Nat × α)) (k : Nat) (v dflt : α)
    (h : d.any (fun kv => kv.1 == k) = true) :
    natDictGet (d.map (fun kv => if kv.1 == k then (kv.1, v) else kv)) k dflt = v := by
  induction d with
  | nil => simp at h
  | cons kv tl ih =>
    by_cases hk : (kv.1 == k) = true
    · unfold natDictGet
      rw [List.map_cons, if_pos hk, List.find?_cons_of_pos _ (by simpa using hk)]
    · rw [List.any_cons] at h
      have h' : tl.any (fun kv => kv.1 == k) = true := by
        rw [Bool.not_eq_true] at hk
        simpa [hk] using h
      unfold natDictGet
      rw [List.map_cons, if_neg hk, List.find?_cons_of_neg _ (by simpa using hk)]
      exact ih h'

theorem natDictGet_set_self {α : Type} (d : List (Nat × α)) (k : Nat) (v dflt : α) :
    natDictGet (natDictSet d k v) k dflt = v := by
  unfold natDictSet
  split
  · next hany => exact natDictGet_map_set d k v dflt hany
  · next hany =>
    have h1 : d.find? (fun kv => kv.1 == k) = none := by
      rw [List.find?_eq_none]
      intro x hx hpx
      exact hany (List.any_eq_true.mpr ⟨x, hx, hpx⟩)
    unfold natDictGet
    rw [List.find?_append, h1, Option.none_or, List.find?_cons_of_pos _ (by simp)]

theorem natDictGet_map_set_ne {α : Type} (d : List (Nat × α)) (k k' : Nat) (v dflt : α)
    (hne : k' ≠ k) :
    natDictGet (d.map (fun kv => if kv.1 == k then (kv.1, v) else kv)) k' dflt =
      natDictGet d k' dflt := by
  induction d with
  | nil => rfl
  | cons kv tl ih =>
    by_cases hk' : (kv.1 == k') = true
    · have hkk : (kv.1 == k) = false := by
        have hkv : kv.1 = k' := by simpa using hk'
        simp [hkv, hne]
      unfold natDictGet
      rw [List.map_cons, if_neg (by simp [hkk]), List.find?_cons_of_pos _ (by simpa using hk'),
        List.find?_cons_of_pos _ (by simpa using hk')]
    · unfold natDictGet at ih ⊢
      rw [List.map_cons]
      by_cases hkk : (kv.1 == k) = true
      · rw [if_pos hkk, List.find?_cons_of_neg _ (by simpa using hk'),
          List.find?_cons_of_neg _ (by simpa using hk')]
        exact ih
      · rw [if_neg hkk, List.find?_cons_of_neg _ (by simpa using hk'),
          List.find?_cons_of_neg _ (by simpa using hk')]
        exact ih

theorem natDictGet_set_ne {α : Type} (d : List (Nat × α)) (k k' : Nat) (v : α) (dflt : α)
    (hne : k' ≠ k) : natDictGet (natDictSet d k v) k' dflt = natDictGet d k' dflt := by
  unfold natDictSet
  split
  · exact natDictGet_map_set_ne d k k' v dflt hne
  · have h3 : List.find? (fun kv => kv.1 == k') [((k, v) : Nat × α)] = none :=
      (List.find?_cons_of_neg _ (by simp only [beq_iff_eq]; exact fun hc => hne hc.symm)).trans
        List.find?_nil
    unfold natDictGet
    rw [List.find?_append, h3, Option.or_none]

/-- `bowler_can_bowl` returns `false` exactly for the three ineligibility
reasons checked by `start_over`. -/
theorem bowler_can_bowl_false_iff (m : Match) (p : Player) :
    bowler_can_bowl m (some p) = false ↔
      (dictGet m.bowler_overs_session p.name 0 ≥ 2 ∨
       dictGet m.bowler_overs_today p.name 0 ≥ 4 ∨ m.last_bowler = some p.name) := by
  unfold bowler_can_bowl
  dsimp only
  split_ifs with a b c <;> simp_all

/-- An invalid bowler name makes `start_over` return after setting the
current-bowler field to `None`; nothing else changes. -/
theorem start_over_invalid_bowler (m : Match) (name : String) (draws : List BallRand)
    (cond : DayCondition) (d : Bool)
    (hmo : m.match_over = false)
    (hday : ¬(m.day_overs_scheduled = 0 ∨ m.overs_in_day ≥ m.day_overs_scheduled))
    (hsync : m.limits_session_number = m.session_number)
    (hfind : (bowling_team m).findIdx? (fun p => p.name == name) = none) :
    start_over m name draws cond d = { m with bowler := none } := by
  unfold start_over
  rw [if_neg (by simp [hmo]), if_neg hday]
  dsimp only
  rw [if_neg (by simp [hsync])]
  unfold select_and_bowl
  rw [hfind]

/-- An ineligible bowler (session limit, day limit, or consecutive-over rule)
makes `start_over` return after setting the current-bowler field to the
selected player; nothing else changes. -/
theorem start_over_rejected (m : Match) (name : String) (draws : List BallRand)
    (cond : DayCondition) (d : Bool) (bi : Nat)
    (hmo : m.match_over = false)
    (hday : ¬(m.day_overs_scheduled = 0 ∨ m.overs_in_day ≥ m.day_overs_scheduled))
    (hsync : m.limits_session_number = m.session_number)
    (hfind : (bowling_team m).findIdx? (fun p => p.name == name) = some bi)
    (hhas1 : dictHas m.bowler_overs_session name = true)
    (hhas2 : dictHas m.bowler_overs_today name = true)
    (hinel : dictGet m.bowler_overs_session name 0 ≥ 2 ∨
             dictGet m.bowler_overs_today name 0 ≥ 4 ∨ m.last_bowler = some name) :
    start_over m name draws cond d = { m with bowler := some bi } := by
  unfold start_over
  rw [if_neg (by simp [hmo]), if_neg hday]
  dsimp only
  rw [if_neg (by simp [hsync])]
  unfold select_and_bowl
  rw [hfind]
  dsimp only
  rw [dictSetdefault_of_has hhas1, dictSetdefault_of_has hhas2]
  by_cases h1 : dictGet m.bowler_overs_session name 0 ≥ 2
  · rw [if_pos h1]
  · rw [if_neg h1]
    by_cases h2 : dictGet m.bowler_overs_today name 0 ≥ 4
    · rw [if_pos h2]
    · rw [if_neg h2]
      rcases hinel with h | h | h
      · exact absurd h h1
      · exact absurd h h2
      · rw [if_pos h]

/-- Outside the fourth innings the chase check is a no-op. -/
theorem check_chase_not_fourth {m : Match} (h : m.innings ≠ 4) :
    check_chase_complete m = (m, false) := by
  unfold check_chase_complete
  rw [if_pos (Or.inl h)]

theorem batting_team_setBattingTeam (m : Match) (t : List Player) :
    batting_team (setBattingTeam m t) = t := by
  unfold setBattingTeam
  by_cases hbt : battingTeamId m = 1
  · rw [if_pos hbt]
    unfold batting_team
    rw [if_pos (show battingTeamId { m with team1 := t } = 1 from hbt)]
  · rw [if_neg hbt]
    unfold batting_team
    rw [if_neg (show ¬battingTeamId { m with team2 := t } = 1 from hbt)]

theorem batting_team_setBowlingTeam (m : Match) (t : List Player) :
    batting_team (setBowlingTeam m t) = batting_team m := by
  unfold setBowlingTeam
  by_cases hbt : battingTeamId m = 1
  · rw [if_pos hbt]
    unfold batting_team
    rw [if_pos (show battingTeamId { m with team2 := t } = 1 from hbt), if_pos hbt]
  · rw [if_neg hbt]
    unfold batting_team
    rw [if_neg (show ¬battingTeamId { m with team1 := t } = 1 from hbt), if_neg hbt]

theorem batting_team_updBatter (m : Match) (i : Nat) (f : Player → Player) :
    batting_team (updBatter m i f) = (batting_team m).set i (f (getBatter m i)) := by
  unfold updBatter
  exact batting_team_setBattingTeam m _

theorem getBatter_updBowler (m : Match) (f : Player → Player) (i : Nat) :
    getBatter (updBowler m f) i = getBatter m i := by
  unfold updBowler
  split
  · unfold getBatter
    rw [batting_team_setBowlingTeam]
  · rfl

theorem getBatter_updBatter_self (m : Match) (i : Nat) (f : Player → Player)
    (hi : i < (batting_team m).length) :
    getBatter (updBatter m i f) i = f (getBatter m i) := by
  unfold getBatter
  rw [batting_team_updBatter]
  rw [List.getD_eq_getElem _ _ (by rw [List.length_set]; exact hi)]
  rw [List.getElem_set_self]
  rfl

end Match

theorem traceOver_reachable (k : Nat) : Match.Reachable (traceOver k) := by
  induction k with
  | zero => exact Match.Reachable.init teamOne teamTwo normalConditions rfl rfl
  | succ n ih => exact Match.Reachable.step _ _ _ _ ih

/-- C1 (code bug): in the reachable state reached by resolving one ball as
the "Quick single - run out at bowler's end" loose-ball card, the team total
is 2 while every batter's tally is 0 and extras are 0, so the claimed
identity "sum of batters' runs + extras = team total" fails. -/
theorem c1_bat_plus_extras_identity_fails :
    Match.Reachable mQuickSingle ∧
    ((Match.batting_team mQuickSingle).map (fun p => p.runs)).sum = 0 ∧
    mQuickSingle.extras = 0 ∧
    mQuickSingle.runs = 2 ∧
    ((Match.batting_team mQuickSingle).map (fun p => p.runs)).sum + mQuickSingle.extras ≠
      mQuickSingle.runs := by
  refine ⟨Match.Reachable.step _ _ _ _
      (Match.Reachable.init teamOne teamTwo normalConditions rfl rfl),
    by decide, by decide, by decide, by decide⟩

/-- C2: in every reachable state the wickets-taken count is at most 10, and
(when the innings is live) incrementing a wicket reports the innings as ended
exactly when the count reaches 10, keeps the count within the bound, and ends
the innings through `end_innings` the instant the 10th falls. -/
theorem c2_wickets_bounded_and_tenth_ends_innings :
    ∀ m : Match, Match.Reachable m →
      m.wickets_taken ≤ 10 ∧
      ∀ d : Bool, m.wickets_taken < 10 →
        (((Match.increment_wicket_and_maybe_end m d).2 = true) ↔ m.wickets_taken + 1 = 10) ∧
        (Match.increment_wicket_and_maybe_end m d).1.wickets_taken ≤ 10 ∧
        (m.wickets_taken + 1 = 10 →
          (Match.increment_wicket_and_maybe_end m d).1 =
            Match.end_innings
              { m with wickets_taken := m.wickets_taken + 1,
                       fow := m.fow ++ [(m.wickets_taken + 1, m.runs)] } d false) := by
  intro m hr
  have hc := Match.reachable_core_inv hr
  refine ⟨hc.1, fun d hlt => ⟨?_, (Match.increment_wicket_core m d hc).1, ?_⟩⟩
  · unfold Match.increment_wicket_and_maybe_end
    dsimp only
    rw [if_neg (by omega)]
    by_cases h10 : m.wickets_taken + 1 = 10
    · rw [if_pos (by omega)]
      simp [h10]
    · rw [if_neg (by omega)]
      simp [h10]
  · intro h10
    unfold Match.increment_wicket_and_maybe_end
    dsimp only
    rw [if_neg (by omega), if_pos (by omega)]

/-- Witness for C2 at the freshly constructed match (team 1 opening on a
normal day 1). -/
theorem c2_wickets_witness :
    m0.wickets_taken ≤ 10 ∧
    (((Match.increment_wicket_and_maybe_end m0 false).2 = true) ↔ m0.wickets_taken + 1 = 10) := by
  have h := c2_wickets_bounded_and_tenth_ends_innings m0
    (Match.Reachable.init teamOne teamTwo normalConditions rfl rfl)
  exact ⟨h.1, (h.2 false (by decide)).1⟩

/-- C3 (counterexample): Q4 bowls over 8 (the last over of session 1); the
session break then wipes the consecutive-over memory, so immediately
afterwards `bowler_can_bowl` accepts Q4 again and `start_over` lets Q4 bowl
over 9 — two overs in immediate succession by the same bowler. -/
theorem c3_consecutive_overs_counterexample :
    Match.Reachable (traceOver 7) ∧
    traceOver 8 = Match.start_over (traceOver 7) "Q4" dotOver normalConditions false ∧
    (traceOver 7).overs_completed = 7 ∧
    (traceOver 8).overs_completed = 8 ∧
    Match.bowler_can_bowl (traceOver 8)
      ((Match.bowling_team (traceOver 8)).find? (fun p => p.name == "Q4")) = true ∧
    (Match.start_over (traceOver 8) "Q4" dotOver normalConditions false).overs_completed = 9 := by
  refine ⟨traceOver_reachable 7, rfl, by decide, by decide, by decide, by decide⟩

/-- C3 (amended): in every reachable state each bowler's recorded
per-session overs are at most 2 and per-day overs at most 4, and whenever
`bowler_can_bowl` rejects the chosen bowler (session quota, day quota, or
having bowled the preceding over of the same session) a call to `start_over`
stops before bowling: it only records the chosen bowler as current.  The
consecutive-over restriction itself does not persist across session or day
boundaries, since those breaks clear the last-bowler memory. -/
theorem c3_workload_bounds_and_rejection :
    ∀ m : Match, Match.Reachable m →
      ((∀ kv ∈ m.bowler_overs_session, kv.2 ≤ 2) ∧ (∀ kv ∈ m.bowler_overs_today, kv.2 ≤ 4)) ∧
      (∀ (p : Player) (bi : Nat) (draws : List Match.BallRand) (cond : DayCondition) (d : Bool),
        m.match_over = false →
        ¬(m.day_overs_scheduled = 0 ∨ m.overs_in_day ≥ m.day_overs_scheduled) →
        m.limits_session_number = m.session_number →
        (Match.bowling_team m).findIdx? (fun q => q.name == p.name) = some bi →
        dictHas m.bowler_overs_session p.name = true →
        dictHas m.bowler_overs_today p.name = true →
        Match.bowler_can_bowl m (some p) = false →
        Match.start_over m p.name draws cond d = { m with bowler := some bi }) := by
  intro m hr
  refine ⟨(Match.reachable_core_inv hr).2, ?_⟩
  intro p bi draws cond d hmo hday hsync hfind hh1 hh2 hcb
  exact Match.start_over_rejected m p.name draws cond d bi hmo hday hsync hfind hh1 hh2
    ((Match.bowler_can_bowl_false_iff m p).mp hcb)

/-- Witness for C3 (amended) after six scoreless overs: the workload bound
holds and rejecting Q1 (who already has 2 session overs) only records Q1 as
current bowler. -/
theorem c3_workload_witness :
    (∀ kv ∈ (traceOver 6).bowler_overs_session, kv.2 ≤ 2) ∧
    Match.start_over (traceOver 6) "Q1" dotOver normalConditions false =
      { traceOver 6 with bowler := some 0 } := by
  have h := c3_workload_bounds_and_rejection (traceOver 6) (traceOver_reachable 6)
  refine ⟨h.1.1, ?_⟩
  exact h.2 (mkBowl "Q1") 0 dotOver normalConditions false (by decide) (by decide) (by decide)
    (by decide) (by decide) (by decide) (by decide)

/-- C9 (counterexample): after six overs the current bowler is Q2 (index 1);
asking for Q1, who is over the session quota, is rejected — yet the call has
already overwritten the current-bowler field with Q1 (index 0), so the state
is NOT left unchanged (the rest of the state, e.g. the over count, is). -/
theorem c9_rejection_mutates_state_counterexample :
    Match.Reachable (traceOver 6) ∧
    dictGet (traceOver 6).bowler_overs_session "Q1" 0 = 2 ∧
    (traceOver 6).bowler = some 1 ∧
    (Match.start_over (traceOver 6) "Q1" dotOver normalConditions false).bowler = some 0 ∧
    (Match.start_over (traceOver 6) "Q1" dotOver normalConditions false).bowler ≠
      (traceOver 6).bowler ∧
    (Match.start_over (traceOver 6) "Q1" dotOver normalConditions false).overs_completed =
      (traceOver 6).overs_completed := by
  refine ⟨traceOver_reachable 6, by decide, by decide, by decide, by decide, by decide⟩

/-- C9 (amended): every rule violation in `start_over` (invalid bowler name,
session or day quota, consecutive-over rule) returns synchronously without
applying any part of the over, but the current-bowler field is overwritten
first: an invalid name leaves it `none`, an ineligible bowler leaves it
pointing at that bowler; every other field is unchanged. -/
theorem c9_rejections_change_only_bowler_field :
    ∀ (m : Match) (name : String) (draws : List Match.BallRand) (cond : DayCondition) (d : Bool),
      m.match_over = false →
      ¬(m.day_overs_scheduled = 0 ∨ m.overs_in_day ≥ m.day_overs_scheduled) →
      m.limits_session_number = m.session_number →
      (((Match.bowling_team m).findIdx? (fun p => p.name == name) = none →
          Match.start_over m name draws cond d = { m with bowler := none }) ∧
       (∀ bi, (Match.bowling_team m).findIdx? (fun p => p.name == name) = some bi →
          dictHas m.bowler_overs_session name = true →
          dictHas m.bowler_overs_today name = true →
          (dictGet m.bowler_overs_session name 0 ≥ 2 ∨
           dictGet m.bowler_overs_today name 0 ≥ 4 ∨ m.last_bowler = some name) →
          Match.start_over m name draws cond d = { m with bowler := some bi })) := by
  intro m name draws cond d hmo hday hsync
  exact ⟨fun hfind => Match.start_over_invalid_bowler m name draws cond d hmo hday hsync hfind,
    fun bi hfind hh1 hh2 hinel =>
      Match.start_over_rejected m name draws cond d bi hmo hday hsync hfind hh1 hh2 hinel⟩

/-- Witness for C9 (amended): both rejection shapes realized after six
overs — an unknown name "Zed", and day-quota-free but session-capped "Q2"
via the consecutive-over rule at over 7. -/
theorem c9_rejections_witness :
    Match.start_over (traceOver 6) "Zed" dotOver normalConditions false =
      { traceOver 6 with bowler := none } ∧
    Match.start_over (traceOver 6) "Q2" dotOver normalConditions false =
      { traceOver 6 with bowler := some 1 } := by
  have h1 := c9_rejections_change_only_bowler_field (traceOver 6) "Zed" dotOver
    normalConditions false (by decide) (by decide) (by decide)
  have h2 := c9_rejections_change_only_bowler_field (traceOver 6) "Q2" dotOver
    normalConditions false (by decide) (by decide) (by decide)
  exact ⟨h1.1 (by decide),
    h2.2 1 (by decide) (by decide) (by decide) (Or.inr (Or.inr (by decide)))⟩

/-- C4: during innings 4 only (with the match live), the post-event chase
check fires exactly when the side batting the 4th innings is strictly ahead
on cumulative totals; it then ends the match immediately with a win by
`10 - wickets_taken` wickets; and any mid-over return of the outcome
handler terminates the over loop at that ball, ignoring the remaining
deliveries of the over. -/
theorem c4_chase_ends_match_mid_over :
    (∀ m : Match,
      (((Match.check_chase_complete m).2 = true) ↔ chaseCond m) ∧
      (chaseCond m →
        (Match.check_chase_complete m).1 =
          { m with
            match_over := true,
            result_summary := some (.winByWickets (natDictGet m.innings_batting_team 4 2)
              (10 - m.wickets_taken)) })) ∧
    (∀ (m : Match) (dr : Match.BallRand) (rest : List Match.BallRand) (ball : Nat) (d : Bool)
        (stri : Nat) (tl : List Nat) (m' : Match),
      ball < 6 → m.current_batsmen = stri :: tl →
      Match.apply_outcome m stri (Match.outcomeAt m stri dr) d = .ret m' →
      Match.over_loop m (dr :: rest) ball d = (m', true)) := by
  constructor
  · intro m
    constructor
    · constructor
      · intro ht
        unfold Match.check_chase_complete at ht
        dsimp only at ht
        by_cases h1 : m.innings ≠ 4 ∨ m.match_over = true
        · rw [if_pos h1] at ht
          exact absurd ht (by simp)
        · rw [if_neg h1] at ht
          push_neg at h1
          have hmo : m.match_over = false := by
            cases hcase : m.match_over
            · rfl
            · exact absurd hcase h1.2
          refine ⟨h1.1, hmo, ?_⟩
          by_cases h2 : natDictGet m.innings_batting_team 4 2 = 1 ∧
              (Match.totals_by_team_including_current m).1 >
                (Match.totals_by_team_including_current m).2
          · exact Or.inl h2
          · rw [if_neg h2] at ht
            by_cases h3 : natDictGet m.innings_batting_team 4 2 = 2 ∧
                (Match.totals_by_team_including_current m).2 >
                  (Match.totals_by_team_including_current m).1
            · exact Or.inr h3
            · rw [if_neg h3] at ht
              exact absurd ht (by simp)
      · intro hc
        obtain ⟨h4, hmo, hd⟩ := hc
        unfold Match.check_chase_complete
        dsimp only
        rw [if_neg (by simp [h4, hmo])]
        rcases hd with ⟨hbt, hgt⟩ | ⟨hbt, hgt⟩
        · rw [if_pos ⟨hbt, hgt⟩]
        · rw [if_neg (by simp [hbt]), if_pos ⟨hbt, hgt⟩]
    · intro hc
      obtain ⟨h4, hmo, hd⟩ := hc
      unfold Match.check_chase_complete
      dsimp only
      rw [if_neg (by simp [h4, hmo])]
      rcases hd with ⟨hbt, hgt⟩ | ⟨hbt, hgt⟩
      · rw [if_pos ⟨hbt, hgt⟩]
        dsimp only
        rw [hbt]
      · rw [if_neg (by simp [hbt]), if_pos ⟨hbt, hgt⟩]
        dsimp only
        rw [hbt]
  · intro m dr rest ball d stri tl m' hball hcb happ
    unfold Match.over_loop
    dsimp only
    rw [if_pos hball, hcb]
    dsimp only
    rw [happ]

/-- Witness for C4: in the chase state `m4chase` (cumulative 221 vs 220 for
the side batting innings 4) the check reports completion, and one more ball
returns mid-over with five deliveries of the over still unbowled. -/
theorem c4_chase_witness :
    (Match.check_chase_complete m4chase).2 = true ∧
    Match.over_loop m4chase (dotBall :: List.replicate 5 dotBall) 0 false =
      (m4afterBall, true) := by
  have h := c4_chase_ends_match_mid_over
  refine ⟨(h.1 m4chase).1.mpr (by decide), ?_⟩
  exact h.2 m4chase dotBall (List.replicate 5 dotBall) 0 false 0 [1] m4afterBall
    (by decide) (by decide) (by decide)

/-- C5 (counterexample): innings 3 closes (all out) as a follow-on innings
with the combined innings-2+3 total exactly EQUAL to the enforcing side's
innings-1 total — "does not exceed" in the spec's words — yet no innings
victory is declared: the code requires a strict shortfall, so the match
moves on to innings 4 still live. -/
theorem c5_equal_aggregate_counterexample :
    m3tie.innings = 3 ∧ m3tie.follow_on_enforced = true ∧
    m3tie.wickets_taken = 10 ∧
    Match.summRuns (Match.snapshot_innings_summary m3tie) 2 +
        Match.summRuns (Match.snapshot_innings_summary m3tie) 3 =
      Match.summRuns (Match.snapshot_innings_summary m3tie) 1 ∧
    (Match.end_innings m3tie false false).innings = 4 ∧
    (Match.end_innings m3tie false false).match_over = false := by
  refine ⟨rfl, rfl, rfl, by decide, by decide, by decide⟩

/-- C5 (amended): when innings 3 closes all out as a follow-on innings, the
match ends immediately as an innings victory for side 1 — margin the run
difference — exactly when the following-on side's combined innings-2+3 total
is STRICTLY below side 1's innings-1 total; on equality (or better) innings
4 is played. -/
theorem c5_follow_on_strict_innings_victory :
    ∀ (m : Match) (d : Bool),
      m.innings = 3 → m.follow_on_enforced = true →
      natDictGet m.innings_batting_team 3 2 = 2 →
      m.wickets_taken ≥ 10 →
      ((Match.summRuns (Match.snapshot_innings_summary m) 2 +
          Match.summRuns (Match.snapshot_innings_summary m) 3 <
          Match.summRuns (Match.snapshot_innings_summary m) 1 →
        Match.end_innings m d false =
          { Match.snapshot_innings_summary m with
            result_summary := some (.winByInnings 1
              (Match.summRuns (Match.snapshot_innings_summary m) 1 -
                (Match.summRuns (Match.snapshot_innings_summary m) 2 +
                 Match.summRuns (Match.snapshot_innings_summary m) 3))),
            match_over := true }) ∧
       (Match.summRuns (Match.snapshot_innings_summary m) 1 ≤
          Match.summRuns (Match.snapshot_innings_summary m) 2 +
          Match.summRuns (Match.snapshot_innings_summary m) 3 →
        (Match.end_innings m d false).innings = 4 ∧
        (Match.end_innings m d false).match_over = m.match_over)) := by
  intro m d h3 hf hbt hw
  constructor
  · intro hlt
    unfold Match.end_innings
    rw [if_neg (by intro hcon; exact absurd hcon.2.2 (by omega))]
    dsimp only
    rw [if_pos ⟨by simp [h3], by simp [hf], by simp [hbt], hlt⟩]
  · intro hge
    unfold Match.end_innings
    rw [if_neg (by intro hcon; exact absurd hcon.2.2 (by omega))]
    dsimp only
    rw [if_neg (by intro hcon; exact absurd hcon.2.2.2 (by omega))]
    rw [if_neg (by simp [h3])]
    dsimp only
    constructor
    · simp [h3]
    · simp

/-- Witness for C5 (amended): in `m3beaten` (aggregate 250 strictly below
300) side 1 wins by an innings and 50 runs; in `m3tie` (aggregate equal)
innings 4 starts. -/
theorem c5_strict_victory_witness :
    Match.end_innings m3beaten false false =
      { Match.snapshot_innings_summary m3beaten with
        result_summary := some (.winByInnings 1
          (Match.summRuns (Match.snapshot_innings_summary m3beaten) 1 -
            (Match.summRuns (Match.snapshot_innings_summary m3beaten) 2 +
             Match.summRuns (Match.snapshot_innings_summary m3beaten) 3))),
        match_over := true } ∧
    Match.summRuns (Match.snapshot_innings_summary m3beaten) 1 -
        (Match.summRuns (Match.snapshot_innings_summary m3beaten) 2 +
         Match.summRuns (Match.snapshot_innings_summary m3beaten) 3) = 50 ∧
    (Match.end_innings m3tie false false).innings = 4 := by
  have h1 := c5_follow_on_strict_innings_victory m3beaten false rfl rfl (by decide) (by decide)
  have h2 := c5_follow_on_strict_innings_victory m3tie false rfl rfl (by decide) (by decide)
  exact ⟨h1.1 (by decide), by decide, (h2.2 (by decide)).1⟩

/-- C6: the follow-on flag changes only through the offer made while ending
innings 2 — `offer_follow_on_if_available` alters the flag exactly when the
innings counter is 2 and side 1's first-innings lead is at least the 200-run
threshold, setting it to the external decision; ending innings 2 advances to
innings 3 with the batting side forced to side 2 exactly when the flag is
set (side 1 otherwise); and ending innings 3 assigns innings 4 by
alternation from innings 3's side, independent of the flag. -/
theorem c6_follow_on_offer_and_innings_order :
    (∀ (m : Match) (d : Bool),
      ((Match.offer_follow_on_if_available m d).follow_on_enforced ≠ m.follow_on_enforced →
        m.innings = 2 ∧
        (Match.summRuns m 1 : Int) - (Match.summRuns m 2 : Int) ≥
          (m.follow_on_threshold : Int) ∧
        (Match.offer_follow_on_if_available m d).follow_on_enforced = d) ∧
      (m.innings = 2 →
        (Match.summRuns m 1 : Int) - (Match.summRuns m 2 : Int) ≥
          (m.follow_on_threshold : Int) →
        (Match.offer_follow_on_if_available m d).follow_on_enforced = d)) ∧
    (∀ (m : Match) (d : Bool),
      m.innings = 2 → m.wickets_taken ≥ 10 →
      (Match.end_innings m d false).innings = 3 ∧
      natDictGet (Match.end_innings m d false).innings_batting_team 3 1 =
        (if (Match.offer_follow_on_if_available (Match.snapshot_innings_summary m)
              d).follow_on_enforced then 2 else 1)) ∧
    (∀ (m : Match) (d : Bool),
      m.innings = 3 → m.wickets_taken ≥ 10 →
      ¬(m.follow_on_enforced = true ∧ natDictGet m.innings_batting_team 3 2 = 2 ∧
         Match.summRuns (Match.snapshot_innings_summary m) 2 +
           Match.summRuns (Match.snapshot_innings_summary m) 3 <
           Match.summRuns (Match.snapshot_innings_summary m) 1) →
      (Match.end_innings m d false).innings = 4 ∧
      natDictGet (Match.end_innings m d false).innings_batting_team 4 2 =
        (if natDictGet m.innings_batting_team 3 1 = 2 then 1 else 2)) := by
  refine ⟨?_, ?_, ?_⟩
  · intro m d
    constructor
    · intro hne
      unfold Match.offer_follow_on_if_available at hne ⊢
      dsimp only at hne ⊢
      by_cases h2 : m.innings ≠ 2
      · rw [if_pos h2] at hne
        exact absurd rfl hne
      · rw [if_neg h2] at hne ⊢
        push_neg at h2
        by_cases hlead : (Match.summRuns m 1 : Int) - (Match.summRuns m 2 : Int) ≥
            (m.follow_on_threshold : Int)
        · rw [if_pos hlead]
          exact ⟨h2, hlead, rfl⟩
        · rw [if_neg hlead] at hne
          exact absurd rfl hne
    · intro h2 hlead
      unfold Match.offer_follow_on_if_available
      dsimp only
      rw [if_neg (by simp [h2]), if_pos hlead]
  · intro m d h2 hw
    unfold Match.end_innings
    rw [if_neg (by intro hcon; exact absurd hcon.2.2 (by omega))]
    dsimp only
    rw [if_neg (by intro hcon; exact absurd hcon.1 (by simp [h2]))]
    rw [if_neg (by simp [h2])]
    dsimp only
    constructor
    · simp [h2]
    · simp [h2, Match.natDictGet_set_self]
  · intro m d h3 hw hno
    unfold Match.end_innings
    rw [if_neg (by intro hcon; exact absurd hcon.2.2 (by omega))]
    dsimp only
    rw [if_neg (by
      intro hcon
      exact hno ⟨by simpa using hcon.2.1, by simpa using hcon.2.2.1, hcon.2.2.2⟩)]
    rw [if_neg (by simp [h3])]
    dsimp only
    constructor
    · simp [h3]
    · simp [h3, Match.natDictGet_set_self]

/-- Witness for C6: in `m2end` (all out with a first-innings lead of exactly
200 and an affirmative decision) the flag is set, innings 3 is batted by
side 2; in `m3plain` (no follow-on) innings 4 alternates to side 2. -/
theorem c6_follow_on_witness :
    (Match.offer_follow_on_if_available m2end true).follow_on_enforced = true ∧
    (Match.end_innings m2end true false).innings = 3 ∧
    natDictGet (Match.end_innings m2end true false).innings_batting_team 3 1 = 2 ∧
    (Match.end_innings m3plain false false).innings = 4 ∧
    natDictGet (Match.end_innings m3plain false false).innings_batting_team 4 2 = 2 := by
  have h := c6_follow_on_offer_and_innings_order
  have hb := h.2.1 m2end true (by decide) (by decide)
  have hc := h.2.2 m3plain false (by decide) (by decide) (by decide)
  refine ⟨(h.1 m2end true).2 (by decide) (by decide), hb.1, ?_, hc.1, ?_⟩
  · rw [hb.2]
    decide
  · rw [hc.2]
    decide

/-- C8 (amended): a rating-"A" striker facing a dice sum of 7 hits
batting-chart index 7, which holds "4", not "2": the ball scores exactly 4
runs, added to the team total and the striker's personal tally (with a four
recorded), and the strike does NOT rotate on that ball (4 is even). -/
theorem c8_chart_a_seven_scores_four :
    ∀ (m : Match) (bowl : String) (i j ci dw ciw : Nat),
      m.innings ≠ 4 →
      m.current_batsmen = [i, j] →
      i < (Match.batting_team m).length →
      simulate_ball "A" bowl 7 ci dw ciw = .runs 4 ∧
      (match Match.apply_runs m i 4 with
       | .cont m' legal =>
           legal = true ∧
           m'.runs = m.runs + 4 ∧
           (Match.getBatter m' i).runs = (Match.getBatter m i).runs + 4 ∧
           (Match.getBatter m' i).fours = (Match.getBatter m i).fours + 1 ∧
           m'.current_batsmen = m.current_batsmen
       | .ret m' => False) := by
  intro m bowl i j ci dw ciw h4 hcb hi
  refine ⟨rfl, ?_⟩
  unfold Match.apply_runs
  dsimp only
  rw [if_pos rfl]
  rw [Match.check_chase_not_fourth (by simpa using h4)]
  dsimp only
  rw [if_neg (show ¬(false = true) by simp)]
  rw [if_neg (by intro hcon; exact absurd hcon.1 (by decide))]
  dsimp only
  refine ⟨rfl, by simp, ?_, ?_, by simp⟩
  · rw [Match.getBatter_updBowler,
      Match.getBatter_updBatter_self _ _ _
        (by rw [Match.batting_team_updBatter, List.length_set]; exact hi),
      Match.getBatter_updBatter_self _ _ _ (by exact hi)]
    rfl
  · rw [Match.getBatter_updBowler,
      Match.getBatter_updBatter_self _ _ _
        (by rw [Match.batting_team_updBatter, List.length_set]; exact hi),
      Match.getBatter_updBatter_self _ _ _ (by exact hi)]
    rfl

/-- Witness for C8 (amended) at the freshly constructed match: striker `P1`
facing the first ball. -/
theorem c8_scores_four_witness :
    simulate_ball "A" "A" 7 0 2 0 = .runs 4 ∧
    (match Match.apply_runs m0 0 4 with
     | .cont m' legal => legal = true ∧ m'.runs = m0.runs + 4
     | .ret m' => False) := by
  have h := c8_chart_a_seven_scores_four m0 "A" 0 1 0 2 0 (by decide) (by decide) (by decide)
  refine ⟨h.1, ?_⟩
  have h2 := h.2
  revert h2
  cases Match.apply_runs m0 0 4 with
  | ret m' => exact fun h2 => h2
  | cont m' legal => exact fun h2 => ⟨h2.1, h2.2.1⟩

/-- C7: for every batter rating and every bowler rating, a two-dice sum of 12
resolves to the Loose Ball card selected by the deck draw — a structured
payload of a deck card — and the resolved outcome is the same for all
ratings, so neither the batting chart nor the bowler chart is consulted. -/
theorem c7_twelve_always_loose_ball :
    ∀ (adj_bat_rating adj_bowl_rating : String) (cardIdx dice_w cardIdxW : Nat),
      simulate_ball adj_bat_rating adj_bowl_rating 12 cardIdx dice_w cardIdxW =
        .looseBall (loose_ball_payload (drawCard cardIdx)) ∧
      loose_ball_payload (drawCard cardIdx) ∈ payloadDeck ∧
      (∀ (bat' bowl' : String) (dice_w' cardIdxW' : Nat),
        simulate_ball bat' bowl' 12 cardIdx dice_w' cardIdxW' =
          simulate_ball adj_bat_rating adj_bowl_rating 12 cardIdx dice_w cardIdxW) := by
  intro ab aw ci dw ciW
  refine ⟨rfl, payload_drawCard_mem ci, fun b' w' dw' ciW' => rfl⟩

/-- C8 (counterexample): the rating-"A" batting-chart cell at index 7 holds
"4", not "2"; a rating-"A" batter facing a dice sum of 7 resolves to 4 runs,
which are added to the team total and the striker's tally with NO strike
rotation (4 is even), contradicting the claimed 2 runs with rotation. -/
theorem c8_chart_a_seven_counterexample :
    batCellFor "A" 7 = "4" ∧
    simulate_ball "A" "A" 7 0 2 0 = .runs 4 ∧
    Match.apply_runs m0 0 4 = .cont mAfterFour true ∧
    mAfterFour.runs = m0.runs + 4 ∧
    (Match.getBatter mAfterFour 0).runs = (Match.getBatter m0 0).runs + 4 ∧
    mAfterFour.current_batsmen = m0.current_batsmen := by
  refine ⟨rfl, rfl, by decide, by decide, by decide, by decide⟩

/-- C10: for every rating pair and every sequence of random draws, the ball
resolver produces exactly one of: a runs outcome in {0,1,2,3,4,6}, a
structured Loose Ball payload of a deck card (never a bare label), or an
Appeal whose result is Not Out, Out with a recognized method, No Ball, or a
Loose Ball deck payload; it never produces the standalone wicket value "W"
(nor a top-level No Ball). -/
theorem c10_resolver_outcome_shape :
    ∀ (adj_bat_rating adj_bowl_rating : String) (dice cardIdx dice_w cardIdxW : Nat),
      match simulate_ball adj_bat_rating adj_bowl_rating dice cardIdx dice_w cardIdxW with
      | .runs n => n ∈ allowedRuns
      | .looseBall p => p ∈ payloadDeck
      | .appeal .notOut => True
      | .appeal (.out mth) => mth ∈ allowedMethods
      | .appeal .noBall => True
      | .appeal (.looseBall p) => p ∈ payloadDeck
      | .wicket => False
      | .noBall => False := by
  intro ab aw dice ci dw ciW
  by_cases h12 : dice = 12
  · subst h12
    simp only [simulate_ball, if_pos rfl]
    exact payload_drawCard_mem ci
  · have hb := batCellFor_mem ab dice
    simp only [simulate_ball, if_neg h12]
    simp only [batCells, List.mem_cons, List.not_mem_nil, or_false] at hb
    rcases hb with hb | hb | hb | hb | hb | hb | hb | hb | hb <;> rw [hb]
    · simp [parseNat?, allowedRuns]
    · -- the appeal cell: resolve via the bowler-wicket chart
      rw [if_pos rfl]
      have hw := bowlCellFor_mem aw dw
      simp only [bowlCells, List.mem_cons, List.not_mem_nil, or_false] at hw
      rcases hw with hw | hw | hw | hw | hw | hw | hw | hw | hw <;> rw [hw] <;>
        first
          | (rw [if_neg (by decide), if_pos rfl]; exact payload_drawCard_mem ciW)
          | simp [allowedMethods]
    · -- the direct Loose Ball cell
      rw [if_neg (by decide), if_pos rfl]
      exact payload_drawCard_mem ci
    all_goals simp [parseNat?, allowedRuns]

end MaxWalker
